import Mathlib

/-!
Verification of the RPG-Maker tilemap rendering engine of this repository
(pixi CompositeTilemap / Tilemap batch buffers, and the rmmv ShaderTilemap
pipeline).  All definitions are shallow embeddings of the TypeScript source:
JavaScript numbers are modelled by rationals, JS integer remainder by
truncated remainder, the falsy-or defaulting of option fields by an explicit
helper, and a thrown TypeError (out-of-bounds lookup in an autotile table)
by an Option-valued result.
-/

namespace RM

/-- JS helper numberMod from the source: ((v % n) + n) % n with truncated %. -/
def jsNumberMod (v n : Int) : Int := ((v.tmod n) + n).tmod n

/-- Truncation toward zero of a rational, as JS % does on its quotient. -/
def qtrunc (x : ℚ) : Int := if 0 ≤ x then ⌊x⌋ else ⌈x⌉

/-- JS remainder a % b on (possibly fractional) numbers. -/
def jsFmod (a b : ℚ) : ℚ := a - b * (qtrunc (a / b) : ℚ)

/-- JS defaulting x = options.x || d: undefined and 0 both fall back to d. -/
def jsOr (o : Option ℚ) (d : ℚ) : ℚ :=
  match o with
  | none => d
  | some v => if v = 0 then d else v

/-- Resource view of a pixi Texture: frame origin, logical size, source size
and the identity of the underlying image source. -/
structure Texture where
  frameX : ℚ
  frameY : ℚ
  origW : ℚ
  origH : ℚ
  srcW : ℚ
  srcH : ℚ
  srcId : Nat
  deriving DecidableEq

/-- The 1x1 translucent black shadow texture created by CompositeTilemap. -/
def shadowTexture : Texture := ⟨0, 0, 1, 1, 1, 1, 0⟩

/-- One accumulated draw command, the PointStruct of the source. -/
structure PointStruct where
  u : ℚ
  v : ℚ
  x : ℚ
  y : ℚ
  tileWidth : ℚ
  tileHeight : ℚ
  rotate : ℚ
  animX : Int
  animY : Int
  animCountX : Int
  animCountY : Int
  animDivisor : ℚ
  alpha : ℚ
  deriving DecidableEq

/-- The optional-field options bag accepted by Tilemap.tile. -/
structure TileOptions where
  u : Option ℚ := none
  v : Option ℚ := none
  tileWidth : Option ℚ := none
  tileHeight : Option ℚ := none
  animX : Option Int := none
  animY : Option Int := none
  rotate : Option ℚ := none
  animCountX : Option Int := none
  animCountY : Option Int := none
  animDivisor : Option ℚ := none
  alpha : Option ℚ := none
  deriving DecidableEq

/-- State of one single-texture batch buffer (class Tilemap of the source). -/
structure Tilemap where
  baseTexture : Texture
  pointsBuf : List PointStruct
  hasAnimatedTile : Bool
  tileAnim : ℚ × ℚ
  deriving DecidableEq

/-- Constructor of the Tilemap class. -/
def newTilemap (t : Texture) : Tilemap :=
  { baseTexture := t, pointsBuf := [], hasAnimatedTile := false, tileAnim := (0, 0) }

/-- Tilemap.clear: drops all commands, resets the animated flag. -/
def Tilemap.clear (tm : Tilemap) : Tilemap :=
  { tm with pointsBuf := [], hasAnimatedTile := false }

/-- Tilemap.tile: applies the JS defaulting rules of the source and appends
one PointStruct to the command list. -/
def Tilemap.tile (tm : Tilemap) (texture : Option Texture) (x y : ℚ)
    (opts : TileOptions) : Tilemap :=
  let texture := texture.getD tm.baseTexture
  let u := jsOr opts.u texture.frameX
  let v := jsOr opts.v texture.frameY
  let tileWidth := jsOr opts.tileWidth texture.origW
  let tileHeight := jsOr opts.tileHeight texture.origH
  let animX := opts.animX.getD 0
  let animY := opts.animY.getD 0
  let rotate := opts.rotate.getD 0
  let animCountX := opts.animCountX.getD 1024
  let animCountY := opts.animCountY.getD 1024
  let animDivisor := opts.animDivisor.getD 1
  let alpha := opts.alpha.getD 1
  { tm with
    hasAnimatedTile := tm.hasAnimatedTile || animX > 0 || animY > 0,
    pointsBuf := tm.pointsBuf ++
      [{ u := u, v := v, x := x, y := y, tileWidth := tileWidth,
         tileHeight := tileHeight, rotate := rotate, animX := animX,
         animY := animY, animCountX := animCountX, animCountY := animCountY,
         animDivisor := animDivisor, alpha := alpha }] }

/-- Tilemap.setTileAnim with its change guard. -/
def Tilemap.setTileAnim (tm : Tilemap) (value : ℚ × ℚ) : Tilemap :=
  if tm.tileAnim ≠ value then { tm with tileAnim := value } else tm

/-- A MeshGeometry triple: positions and uvs are float arrays, indices a
Uint32 array.  List.set discards out-of-range writes exactly as a JS typed
array does, and List.take clamps exactly as subarray does. -/
structure Geometry where
  positions : List ℚ
  uvs : List ℚ
  indices : List Nat
  deriving DecidableEq

/-- Freshly allocated zero-filled arrays for n quads. -/
def freshGeometry (n : Nat) : Geometry :=
  { positions := List.replicate (n * 8) 0,
    uvs := List.replicate (n * 8) 0,
    indices := List.replicate (n * 6) 0 }

/-- The allocation prologue of Tilemap._computeGeometriesBatched: reallocate
when no geometry was supplied or positions.length <= 8n, otherwise take a
subarray view of the existing backing storage. -/
def allocGeometry (prev : Option Geometry) (n : Nat) : Geometry :=
  match prev with
  | none => freshGeometry n
  | some g =>
    if g.positions.length ≤ n * 8 then freshGeometry n
    else
      { positions := g.positions.take (n * 8),
        uvs := g.uvs.take (n * 8),
        indices := g.indices.take (n * 6) }

/-- The six index writes of one quad: two CCW triangles 0-1-2 and 0-2-3. -/
def write6 (a : List Nat) (i : Nat) : List Nat :=
  let pntBase := i * 4
  let indBase := i * 6
  (((((a.set indBase pntBase).set (indBase + 1) (pntBase + 1)).set
      (indBase + 2) (pntBase + 2)).set (indBase + 3) pntBase).set
      (indBase + 4) (pntBase + 2)).set (indBase + 5) (pntBase + 3)

/-- The body of the geometry loop for one enumerated PointStruct: animation
snap, four corner positions, four uv pairs and six indices. -/
def writeQuadGeom (tm : Tilemap) (g : Geometry) (ip : Nat × PointStruct) :
    Geometry :=
  let i := ip.1
  let point := ip.2
  let pntBase := i * 4
  let base := pntBase * 2
  let cf0 : Int := ⌊tm.tileAnim.1 / point.animDivisor + 1 / 2⌋
  let cf1 : Int := ⌊tm.tileAnim.2 / point.animDivisor + 1 / 2⌋
  let off0 : ℚ := if point.animX ≠ 0 then
    ((point.animX * (cf0.tmod point.animCountX) : Int) : ℚ) else 0
  let off1 : ℚ := if point.animY ≠ 0 then
    ((point.animY * (cf1.tmod point.animCountY) : Int) : ℚ) else 0
  let u := point.u + off0
  let v := point.v + off1
  let sw := tm.baseTexture.srcW
  let sh := tm.baseTexture.srcH
  { positions :=
      (((((((g.positions.set base point.x).set (base + 1) point.y).set
        (base + 2) (point.x + point.tileWidth)).set (base + 3) point.y).set
        (base + 4) (point.x + point.tileWidth)).set
        (base + 5) (point.y + point.tileHeight)).set
        (base + 6) point.x).set (base + 7) (point.y + point.tileHeight),
    uvs :=
      (((((((g.uvs.set base (u / sw)).set (base + 1) (v / sh)).set
        (base + 2) ((u + point.tileWidth) / sw)).set (base + 3) (v / sh)).set
        (base + 4) ((u + point.tileWidth) / sw)).set
        (base + 5) ((v + point.tileHeight) / sh)).set
        (base + 6) (u / sw)).set
        (base + 7) ((v + point.tileHeight) / sh),
    indices := write6 g.indices i }

/-- Tilemap._computeGeometriesBatched: allocation prologue followed by the
write loop over the enumerated command list. -/
def computeGeometriesBatched (tm : Tilemap) (prev : Option Geometry) :
    Geometry :=
  let g0 := allocGeometry prev tm.pointsBuf.length
  tm.pointsBuf.enum.foldl (writeQuadGeom tm) g0

/-- Tile type checker constants of the rmmv Tilemap class. -/
def TILE_ID_B : Int := 0

/-- Start of band C. -/
def TILE_ID_C : Int := 256

/-- Start of band D. -/
def TILE_ID_D : Int := 512

/-- Start of band E. -/
def TILE_ID_E : Int := 768

/-- Start of band A5. -/
def TILE_ID_A5 : Int := 1536

/-- Start of band A1. -/
def TILE_ID_A1 : Int := 2048

/-- Start of band A2. -/
def TILE_ID_A2 : Int := 2816

/-- Start of band A3. -/
def TILE_ID_A3 : Int := 4352

/-- Start of band A4. -/
def TILE_ID_A4 : Int := 5888

/-- Exclusive upper bound of every visible tile ID. -/
def TILE_ID_MAX : Int := 8192

/-- Tilemap.isVisibleTile. -/
def isVisibleTile (tileId : Int) : Bool :=
  tileId > 0 && tileId < TILE_ID_MAX

/-- Tilemap.isAutotile. -/
def isAutotile (tileId : Int) : Bool :=
  tileId ≥ TILE_ID_A1

/-- Tilemap.getAutotileKind: Math.floor over a real division. -/
def getAutotileKind (tileId : Int) : Int :=
  (tileId - TILE_ID_A1).fdiv 48

/-- Tilemap.getAutotileShape: a JS truncated remainder. -/
def getAutotileShape (tileId : Int) : Int :=
  (tileId - TILE_ID_A1).tmod 48

/-- Tilemap.makeAutotileId. -/
def makeAutotileId (kind shape : Int) : Int :=
  TILE_ID_A1 + kind * 48 + shape

/-- Tilemap.isTileA1. -/
def isTileA1 (tileId : Int) : Bool :=
  tileId ≥ TILE_ID_A1 && tileId < TILE_ID_A2

/-- Tilemap.isTileA2. -/
def isTileA2 (tileId : Int) : Bool :=
  tileId ≥ TILE_ID_A2 && tileId < TILE_ID_A3

/-- Tilemap.isTileA3. -/
def isTileA3 (tileId : Int) : Bool :=
  tileId ≥ TILE_ID_A3 && tileId < TILE_ID_A4

/-- Tilemap.isTileA4. -/
def isTileA4 (tileId : Int) : Bool :=
  tileId ≥ TILE_ID_A4 && tileId < TILE_ID_MAX

/-- Tilemap.isTileA5. -/
def isTileA5 (tileId : Int) : Bool :=
  tileId ≥ TILE_ID_A5 && tileId < TILE_ID_A1

/-- Tilemap.isShadowingTile. -/
def isShadowingTile (tileId : Int) : Bool :=
  isTileA3 tileId || isTileA4 tileId

/-- Flag lookup this.flags[tileId]: an out-of-range or negative index reads
undefined, which the bitwise and coerces to 0. -/
def flagAt (flags : List Nat) (tileId : Int) : Nat :=
  if tileId < 0 then 0 else (flags.get? tileId.toNat).getD 0

/-- Tilemap._isHigherTile: flag bit 0x10. -/
def isHigherTile (flags : List Nat) (tileId : Int) : Bool :=
  flagAt flags tileId &&& 0x10 ≠ 0

/-- Tilemap._isTableTile: A2 band and flag bit 0x80. -/
def isTableTile (flags : List Nat) (tileId : Int) : Bool :=
  isTileA2 tileId && flagAt flags tileId &&& 0x80 ≠ 0

/-- Tilemap._isOverpassPosition: the always-false stub of the source. -/
def isOverpassPosition (_mx _my : Int) : Bool := false

/-- One entry of an autotile shape table: the four quadrant source pairs. -/
structure QuadEntry where
  q0 : Int × Int
  q1 : Int × Int
  q2 : Int × Int
  q3 : Int × Int
  deriving DecidableEq

/-- Literal shorthand for a table entry. -/
def qe (a b c d e f g h : Int) : QuadEntry :=
  ⟨(a, b), (c, d), (e, f), (g, h)⟩

/-- Quadrant i of a table entry, for the loop index i < 4. -/
def quadAt (e : QuadEntry) (i : Nat) : Int × Int :=
  match i with
  | 0 => e.q0
  | 1 => e.q1
  | 2 => e.q2
  | _ => e.q3

/-- Tilemap.FLOOR_AUTOTILE_TABLE, 48 shapes. -/
def FLOOR_AUTOTILE_TABLE : List QuadEntry := [
  qe 2 4 1 4 2 3 1 3,
  qe 2 0 1 4 2 3 1 3,
  qe 2 4 3 0 2 3 1 3,
  qe 2 0 3 0 2 3 1 3,
  qe 2 4 1 4 2 3 3 1,
  qe 2 0 1 4 2 3 3 1,
  qe 2 4 3 0 2 3 3 1,
  qe 2 0 3 0 2 3 3 1,
  qe 2 4 1 4 2 1 1 3,
  qe 2 0 1 4 2 1 1 3,
  qe 2 4 3 0 2 1 1 3,
  qe 2 0 3 0 2 1 1 3,
  qe 2 4 1 4 2 1 3 1,
  qe 2 0 1 4 2 1 3 1,
  qe 2 4 3 0 2 1 3 1,
  qe 2 0 3 0 2 1 3 1,
  qe 0 4 1 4 0 3 1 3,
  qe 0 4 3 0 0 3 1 3,
  qe 0 4 1 4 0 3 3 1,
  qe 0 4 3 0 0 3 3 1,
  qe 2 2 1 2 2 3 1 3,
  qe 2 2 1 2 2 3 3 1,
  qe 2 2 1 2 2 1 1 3,
  qe 2 2 1 2 2 1 3 1,
  qe 2 4 3 4 2 3 3 3,
  qe 2 4 3 4 2 1 3 3,
  qe 2 0 3 4 2 3 3 3,
  qe 2 0 3 4 2 1 3 3,
  qe 2 4 1 4 2 5 1 5,
  qe 2 0 1 4 2 5 1 5,
  qe 2 4 3 0 2 5 1 5,
  qe 2 0 3 0 2 5 1 5,
  qe 0 4 3 4 0 3 3 3,
  qe 2 2 1 2 2 5 1 5,
  qe 0 2 1 2 0 3 1 3,
  qe 0 2 1 2 0 3 3 1,
  qe 2 2 3 2 2 3 3 3,
  qe 2 2 3 2 2 1 3 3,
  qe 2 4 3 4 2 5 3 5,
  qe 2 0 3 4 2 5 3 5,
  qe 0 4 1 4 0 5 1 5,
  qe 0 4 3 0 0 5 1 5,
  qe 0 2 3 2 0 3 3 3,
  qe 0 2 1 2 0 5 1 5,
  qe 0 4 3 4 0 5 3 5,
  qe 2 2 3 2 2 5 3 5,
  qe 0 2 3 2 0 5 3 5,
  qe 0 0 1 0 0 1 1 1
]

/-- Tilemap.WALL_AUTOTILE_TABLE, 16 shapes. -/
def WALL_AUTOTILE_TABLE : List QuadEntry := [
  qe 2 2 1 2 2 1 1 1,
  qe 0 2 1 2 0 1 1 1,
  qe 2 0 1 0 2 1 1 1,
  qe 0 0 1 0 0 1 1 1,
  qe 2 2 3 2 2 1 3 1,
  qe 0 2 3 2 0 1 3 1,
  qe 2 0 3 0 2 1 3 1,
  qe 0 0 3 0 0 1 3 1,
  qe 2 2 1 2 2 3 1 3,
  qe 0 2 1 2 0 3 1 3,
  qe 2 0 1 0 2 3 1 3,
  qe 0 0 1 0 0 3 1 3,
  qe 2 2 3 2 2 3 3 3,
  qe 0 2 3 2 0 3 3 3,
  qe 2 0 3 0 2 3 3 3,
  qe 0 0 3 0 0 3 3 3
]

/-- Tilemap.WATERFALL_AUTOTILE_TABLE, 4 shapes. -/
def WATERFALL_AUTOTILE_TABLE : List QuadEntry := [
  qe 2 0 1 0 2 1 1 1,
  qe 0 0 1 0 0 1 1 1,
  qe 2 0 3 0 2 1 3 1,
  qe 0 0 3 0 0 1 3 1
]

/-- Which of the three shape tables _drawAutotile selected. -/
inductive TableSel where
  | floor
  | wall
  | waterfall
  deriving DecidableEq

/-- The selected table as a list of entries. -/
def tableOf : TableSel → List QuadEntry
  | .floor => FLOOR_AUTOTILE_TABLE
  | .wall => WALL_AUTOTILE_TABLE
  | .waterfall => WATERFALL_AUTOTILE_TABLE

/-- State of a CompositeTilemap: the layered single-texture tilemaps, the
lazily created shadow slot, the shared animation frame and the layer
position set by _updateLayerPositions. -/
structure Composite where
  children : List Tilemap
  shadowId : Int
  tileAnim : ℚ × ℚ
  posX : ℚ
  posY : ℚ
  deriving DecidableEq

/-- Constructor new CompositeTilemap() without a preinitialized tileset. -/
def newComposite : Composite :=
  { children := [], shadowId := -1, tileAnim := (0, 0), posX := 0, posY := 0 }

/-- CompositeTilemap.clear: clears every owned tilemap, keeps the slots. -/
def Composite.clear (cs : Composite) : Composite :=
  { cs with children := cs.children.map Tilemap.clear }

/-- JS children[i] for an integer index: undefined when out of range. -/
def getChildI (l : List Tilemap) (i : Int) : Option Tilemap :=
  if i < 0 then none else l.get? i.toNat

/-- Writing back the mutated child at an integer index. -/
def setChildI (l : List Tilemap) (i : Int) (tm : Tilemap) : List Tilemap :=
  if i < 0 then l else l.set i.toNat tm

/-- A tile reference accepted by CompositeTilemap.tile: a concrete texture
or a JS number (the -1 value is the shadow sentinel). -/
inductive TileRef where
  | tex (t : Texture)
  | num (i : Int)
  deriving DecidableEq

/-- Linear probe of the texture branch: route to the first tilemap whose
base texture shares the underlying source. -/
def probeTile (l : List Tilemap) (t : Texture) (x y : ℚ)
    (opts : TileOptions) : Option (List Tilemap) :=
  match l with
  | [] => none
  | tm :: rest =>
    if tm.baseTexture.srcId = t.srcId then
      some (tm.tile (some t) x y opts :: rest)
    else
      (probeTile rest t x y opts).map (tm :: ·)

/-- CompositeTilemap.tile: shadow sentinel, numeric slot with fallback to
slot 0 and silent no-op, or texture probe with lazy creation. -/
def Composite.tile (cs : Composite) (ref : TileRef) (x y : ℚ)
    (opts : TileOptions) : Composite :=
  match ref with
  | .num i =>
    if i = -1 then
      if cs.shadowId = -1 then
        let tm := (newTilemap shadowTexture).tile none x y opts
        { cs with children := cs.children ++ [tm],
                  shadowId := (cs.children.length : Int) }
      else
        match getChildI cs.children cs.shadowId with
        | some tm =>
          { cs with children :=
              setChildI cs.children cs.shadowId (tm.tile none x y opts) }
        | none => cs
    else
      match getChildI cs.children i with
      | some tm =>
        { cs with children := setChildI cs.children i (tm.tile none x y opts) }
      | none =>
        match cs.children with
        | [] => cs
        | tm0 :: rest =>
          { cs with children := tm0.tile none x y opts :: rest }
  | .tex t =>
    match probeTile cs.children t x y opts with
    | some l => { cs with children := l }
    | none =>
      { cs with children :=
          cs.children ++ [(newTilemap t).tile (some t) x y opts] }

/-- CompositeTilemap.setTileAnim with its change guard and propagation. -/
def Composite.setTileAnim (cs : Composite) (value : ℚ × ℚ) : Composite :=
  if cs.tileAnim ≠ value then
    { cs with tileAnim := value,
              children := cs.children.map (·.setTileAnim value) }
  else cs

/-- The branch data computed by the band cascade of _drawAutotile. -/
structure AutoParams where
  setNumber : Int
  bx : Int
  byv : Int
  animX : Int
  animY : Int
  tbl : TableSel
  isTable : Bool
  deriving DecidableEq

/-- The band cascade of ShaderTilemap._drawAutotile: per-band base sheet
coordinates, animation axes, table selection and table-tile status. -/
def autotileParams (flags : List Nat) (tileId : Int) : AutoParams :=
  let kind := getAutotileKind tileId
  let tx := kind.tmod 8
  let ty := kind.fdiv 8
  if isTileA1 tileId then
    if kind = 0 then ⟨0, 0, 0, 2, 0, .floor, false⟩
    else if kind = 1 then ⟨0, 0, 3, 2, 0, .floor, false⟩
    else if kind = 2 then ⟨0, 6, 0, 0, 0, .floor, false⟩
    else if kind = 3 then ⟨0, 6, 3, 0, 0, .floor, false⟩
    else
      let bx := tx.fdiv 4 * 8
      let byv := ty * 6 + (tx.fdiv 2).tmod 2 * 3
      if kind.tmod 2 = 0 then ⟨0, bx, byv, 2, 0, .floor, false⟩
      else ⟨0, bx + 6, byv, 0, 1, .waterfall, false⟩
  else if isTileA2 tileId then
    ⟨1, tx * 2, (ty - 2) * 3, 0, 0, .floor, isTableTile flags tileId⟩
  else if isTileA3 tileId then
    ⟨2, tx * 2, (ty - 6) * 2, 0, 0, .wall, false⟩
  else if isTileA4 tileId then
    ⟨3, tx * 2,
      ⌊((ty : ℚ) - 10) * (5 / 2) + (if ty.tmod 2 = 1 then (1 : ℚ) / 2 else 0)⌋,
      0, 0, if ty.tmod 2 = 1 then .wall else .floor, false⟩
  else ⟨0, 0, 0, 0, 0, .floor, false⟩

/-- The texture slot selected by _drawNormalTile. -/
def normalTileSetNumber (tileId : Int) : Int :=
  if isTileA5 tileId then 4 else 5 + tileId.ediv 256

/-- The texture slot a visible tile ID is routed to by _drawTile: autotiles
through _drawAutotile, everything else through _drawNormalTile. -/
def drawTileSlot (flags : List Nat) (tileId : Int) : Int :=
  if isAutotile tileId then (autotileParams flags tileId).setNumber
  else normalTileSetNumber tileId

/-- One layer.tile invocation made by a draw routine of ShaderTilemap. -/
structure LayerCall where
  ref : Int
  x : ℚ
  y : ℚ
  opts : TileOptions
  deriving DecidableEq

/-- Replays a list of layer.tile invocations on a composite layer. -/
def applyCalls (cs : Composite) (calls : List LayerCall) : Composite :=
  calls.foldl (fun c k => c.tile (.num k.ref) k.x k.y k.opts) cs

/-- The mirrored horizontal source index of the upper table slice:
(4 - qsx) mod 4 when the quadrant source row is 1, qsx otherwise. -/
def mirrorQsx (qsx qsy : Int) : Int :=
  if qsy = 1 then (4 - qsx).tmod 4 else qsx

/-- The first layer.tile invocation of the table branch: the replacement
slice of full quadrant height h1 sourced from row 3 with the mirrored
horizontal index. -/
def tableUpperSlice (p : AutoParams) (qsx qsy : Int) (w1 h1 dx1 dy1 : ℚ) :
    LayerCall :=
  { ref := p.setNumber, x := dx1, y := dy1,
    opts := { u := some (((p.bx * 2 + mirrorQsx qsx qsy : Int) : ℚ) * w1),
              v := some (((p.byv * 2 + 3 : Int) : ℚ) * h1),
              tileWidth := some w1, tileHeight := some h1,
              animX := some p.animX, animY := some p.animY } }

/-- The second layer.tile invocation of the table branch: the original
quadrant source at half quadrant height, shifted h1 / 2 down. -/
def tableLowerSlice (p : AutoParams) (qsx qsy : Int) (w1 h1 dx1 dy1 : ℚ) :
    LayerCall :=
  { ref := p.setNumber, x := dx1, y := dy1 + h1 / 2,
    opts := { u := some (((p.bx * 2 + qsx : Int) : ℚ) * w1),
              v := some (((p.byv * 2 + qsy : Int) : ℚ) * h1),
              tileWidth := some w1, tileHeight := some (h1 / 2),
              animX := some p.animX, animY := some p.animY } }

/-- The single layer.tile invocation of the ordinary quadrant branch. -/
def plainQuadSlice (p : AutoParams) (qsx qsy : Int) (w1 h1 dx1 dy1 : ℚ) :
    LayerCall :=
  { ref := p.setNumber, x := dx1, y := dy1,
    opts := { u := some (((p.bx * 2 + qsx : Int) : ℚ) * w1),
              v := some (((p.byv * 2 + qsy : Int) : ℚ) * h1),
              tileWidth := some w1, tileHeight := some h1,
              animX := some p.animX, animY := some p.animY } }

/-- The body of the quadrant loop of _drawAutotile for loop index i: a table
tile whose quadrant source row is 1 or 5 produces an upper replacement slice
of height h1 sourced from row 3 (with the horizontal index mirrored when the
row is 1) followed by a lower slice of height h1 / 2 shifted down by h1 / 2;
every other quadrant produces a single w1 by h1 slice. -/
def autotileQuadDraw (p : AutoParams) (e : QuadEntry) (w1 h1 dx dy : ℚ)
    (i : Nat) : List LayerCall :=
  let qsx := (quadAt e i).1
  let qsy := (quadAt e i).2
  let dx1 := dx + ((i % 2 : Nat) : ℚ) * w1
  let dy1 := dy + ((i / 2 : Nat) : ℚ) * h1
  if p.isTable = true ∧ (qsy = 1 ∨ qsy = 5) then
    [tableUpperSlice p qsx qsy w1 h1 dx1 dy1,
     tableLowerSlice p qsx qsy w1 h1 dx1 dy1]
  else
    [plainQuadSlice p qsx qsy w1 h1 dx1 dy1]

/-- The layer.tile invocations of ShaderTilemap._drawAutotile.  A shape
index outside the selected table reads undefined in JS and throws on the
quadrant access; that abnormal exit is the none value. -/
def drawAutotileCalls (tileWidth tileHeight : ℚ) (flags : List Nat)
    (tileId : Int) (dx dy : ℚ) : Option (List LayerCall) :=
  let p := autotileParams flags tileId
  let shape := getAutotileShape tileId
  if shape < 0 then none
  else
    match (tableOf p.tbl).get? shape.toNat with
    | none => none
    | some e =>
      let w1 := tileWidth / 2
      let h1 := tileHeight / 2
      some ((List.range 4).flatMap (autotileQuadDraw p e w1 h1 dx dy))

/-- The single layer.tile invocation of ShaderTilemap._drawNormalTile. -/
def drawNormalTileCall (tileWidth tileHeight : ℚ) (tileId : Int)
    (dx dy : ℚ) : LayerCall :=
  let setNumber := normalTileSetNumber tileId
  let w := tileWidth
  let h := tileHeight
  let sx := (((tileId.fdiv 128).tmod 2 * 8 + tileId.tmod 8 : Int) : ℚ) * w
  let sy := ((((tileId.tmod 256).fdiv 8).tmod 16 : Int) : ℚ) * h
  { ref := setNumber, x := dx, y := dy,
    opts := { u := some sx, v := some sy, tileWidth := some w,
              tileHeight := some h } }

/-- The layer.tile invocations of ShaderTilemap._drawTableEdge: the two
lower quadrants of the floor pattern as half-height strips.  For an A2 tile
the shape is always inside the 48-entry floor table, so the none lookup is
unreachable and yields no calls. -/
def drawTableEdgeCalls (tileWidth tileHeight : ℚ) (tileId : Int)
    (dx dy : ℚ) : List LayerCall :=
  if isTileA2 tileId then
    let kind := getAutotileKind tileId
    let shape := getAutotileShape tileId
    let tx := kind.tmod 8
    let ty := kind.fdiv 8
    let setNumber : Int := 1
    let bx := tx * 2
    let byv := (ty - 2) * 3
    match FLOOR_AUTOTILE_TABLE.get? shape.toNat with
    | none => []
    | some e =>
      let w1 := tileWidth / 2
      let h1 := tileHeight / 2
      (List.range 2).flatMap (fun i =>
        let qsx := (quadAt e (2 + i)).1
        let qsy := (quadAt e (2 + i)).2
        let sx1 := ((bx * 2 + qsx : Int) : ℚ) * w1
        let sy1 := ((byv * 2 + qsy : Int) : ℚ) * h1 + h1 / 2
        let dx1 := dx + ((i % 2 : Nat) : ℚ) * w1
        let dy1 := dy + ((i / 2 : Nat) : ℚ) * h1
        [{ ref := setNumber, x := dx1, y := dy1,
           opts := { u := some sx1, v := some sy1, tileWidth := some w1,
                     tileHeight := some (h1 / 2) } }])
  else []

/-- Bit i of the low shadow nibble: JS coerces the operand to Int32, whose
bits 0 to 3 agree with the value modulo 16. -/
def shadowBitSet (shadowBits : Int) (i : Nat) : Bool :=
  (shadowBits.emod 16).toNat.testBit i

/-- The layer.tile invocations of ShaderTilemap._drawShadow: one half-tile
quad per set bit of the low nibble, at the matching quadrant offset. -/
def drawShadowCalls (tileWidth tileHeight : ℚ) (shadowBits : Int)
    (dx dy : ℚ) : List LayerCall :=
  if shadowBits.emod 16 ≠ 0 then
    let w1 := tileWidth / 2
    let h1 := tileHeight / 2
    (List.range 4).flatMap (fun i =>
      if shadowBitSet shadowBits i then
        [{ ref := -1, x := dx + ((i % 2 : Nat) : ℚ) * w1,
           y := dy + ((i / 2 : Nat) : ℚ) * h1,
           opts := { tileWidth := some w1, tileHeight := some h1 } }]
      else [])
  else []

/-- ShaderTilemap._drawAutotile acting on a composite layer. -/
def drawAutotile (tileWidth tileHeight : ℚ) (flags : List Nat)
    (layer : Composite) (tileId : Int) (dx dy : ℚ) : Option Composite :=
  (drawAutotileCalls tileWidth tileHeight flags tileId dx dy).map
    (applyCalls layer)

/-- ShaderTilemap._drawNormalTile acting on a composite layer. -/
def drawNormalTile (tileWidth tileHeight : ℚ) (layer : Composite)
    (tileId : Int) (dx dy : ℚ) : Composite :=
  applyCalls layer [drawNormalTileCall tileWidth tileHeight tileId dx dy]

/-- ShaderTilemap._drawTile: invisible IDs are skipped, autotiles decoded,
other IDs drawn as normal tiles. -/
def drawTile (tileWidth tileHeight : ℚ) (flags : List Nat)
    (layer : Composite) (tileId : Int) (dx dy : ℚ) : Option Composite :=
  if isVisibleTile tileId then
    if isAutotile tileId then
      drawAutotile tileWidth tileHeight flags layer tileId dx dy
    else some (drawNormalTile tileWidth tileHeight layer tileId dx dy)
  else some layer

/-- ShaderTilemap._drawTableEdge acting on a composite layer. -/
def drawTableEdge (tileWidth tileHeight : ℚ) (layer : Composite)
    (tileId : Int) (dx dy : ℚ) : Composite :=
  applyCalls layer (drawTableEdgeCalls tileWidth tileHeight tileId dx dy)

/-- ShaderTilemap._drawShadow acting on the shadow layer. -/
def drawShadow (tileWidth tileHeight : ℚ) (layer : Composite)
    (shadowBits : Int) (dx dy : ℚ) : Composite :=
  applyCalls layer (drawShadowCalls tileWidth tileHeight shadowBits dx dy)

/-- The configuration and map data fields of the abstract Tilemap class. -/
structure MapConfig where
  mapWidth : Int
  mapHeight : Int
  mapData : Option (List Int)
  flags : List Nat
  horizontalWrap : Bool
  verticalWrap : Bool
  tileWidth : ℚ
  tileHeight : ℚ
  margin : ℚ
  width : ℚ
  height : ℚ
  deriving DecidableEq

/-- Tilemap._readMapData: optional wrap by numberMod, in-range lookup into
the flat 5-plane array, 0 outside the grid or when no data is set. -/
def readMapData (cfg : MapConfig) (x y z : Int) : Int :=
  match cfg.mapData with
  | some data =>
    let width := cfg.mapWidth
    let height := cfg.mapHeight
    let x := if cfg.horizontalWrap then jsNumberMod x width else x
    let y := if cfg.verticalWrap then jsNumberMod y height else y
    if 0 ≤ x ∧ x < width ∧ 0 ≤ y ∧ y < height then
      (data.get? ((z * height + y) * width + x).toNat).getD 0
    else 0
  | none => 0

/-- The nine composite layers owned by a ShaderTilemap. -/
structure Layers where
  lower0 : Composite
  lower1 : Composite
  lower2 : Composite
  lower3 : Composite
  upper0 : Composite
  upper1 : Composite
  upper2 : Composite
  upper3 : Composite
  shadow : Composite
  deriving DecidableEq

/-- All nine layers freshly constructed. -/
def initLayers : Layers :=
  ⟨newComposite, newComposite, newComposite, newComposite, newComposite,
   newComposite, newComposite, newComposite, newComposite⟩

/-- The clear phase of _paintAllTiles. -/
def clearAllLayers (L : Layers) : Layers :=
  ⟨L.lower0.clear, L.lower1.clear, L.lower2.clear, L.lower3.clear,
   L.upper0.clear, L.upper1.clear, L.upper2.clear, L.upper3.clear,
   L.shadow.clear⟩

/-- A display-list reference to one of the nine composite layers. -/
inductive LayerId where
  | lower (i : Nat)
  | shadow
  | upper (i : Nat)
  deriving DecidableEq

/-- The addChild sequence of the ShaderTilemap constructor: lower 0 and 1,
then the shadow layer, then lower 2 and 3, then the four upper layers. -/
def constructorChildOrder : List LayerId :=
  ([] ++ [.lower 0, .lower 1]) ++ [.shadow] ++ [.lower 2, .lower 3] ++
    [.upper 0, .upper 1, .upper 2, .upper 3]

/-- ShaderTilemap._paintTiles for one cell: reads the four tile planes and
the shadow plane, then draws in the fixed order layer 0, layer 1, shadow,
table edge, layer 2, layer 3, routing by the higher flag (or the overpass
stub for layers 2 and 3). -/
def paintCell (cfg : MapConfig) (L : Layers) (startX startY x y : Int) :
    Option Layers := do
  let mx := startX + x
  let my := startY + y
  let dx : ℚ := (x : ℚ) * cfg.tileWidth
  let dy : ℚ := (y : ℚ) * cfg.tileHeight
  let tileId0 := readMapData cfg mx my 0
  let tileId1 := readMapData cfg mx my 1
  let tileId2 := readMapData cfg mx my 2
  let tileId3 := readMapData cfg mx my 3
  let shadowBits := readMapData cfg mx my 4
  let upperTileId1 := readMapData cfg mx (my - 1) 1
  let w := cfg.tileWidth
  let h := cfg.tileHeight
  let fl := cfg.flags
  let L ←
    if isHigherTile fl tileId0 then
      (drawTile w h fl L.upper0 tileId0 dx dy).map (fun c => { L with upper0 := c })
    else
      (drawTile w h fl L.lower0 tileId0 dx dy).map (fun c => { L with lower0 := c })
  let L ←
    if isHigherTile fl tileId1 then
      (drawTile w h fl L.upper1 tileId1 dx dy).map (fun c => { L with upper1 := c })
    else
      (drawTile w h fl L.lower1 tileId1 dx dy).map (fun c => { L with lower1 := c })
  let L := { L with shadow := drawShadow w h L.shadow shadowBits dx dy }
  let L :=
    if isTableTile fl upperTileId1 ∧ ¬isTableTile fl tileId1 then
      if ¬isShadowingTile tileId0 then
        { L with lower2 := drawTableEdge w h L.lower2 upperTileId1 dx dy }
      else L
    else L
  if isOverpassPosition mx my then do
    let L ← (drawTile w h fl L.upper2 tileId2 dx dy).map (fun c => { L with upper2 := c })
    (drawTile w h fl L.upper3 tileId3 dx dy).map (fun c => { L with upper3 := c })
  else do
    let L ←
      if isHigherTile fl tileId2 then
        (drawTile w h fl L.upper2 tileId2 dx dy).map (fun c => { L with upper2 := c })
      else
        (drawTile w h fl L.lower2 tileId2 dx dy).map (fun c => { L with lower2 := c })
    if isHigherTile fl tileId3 then
      (drawTile w h fl L.upper3 tileId3 dx dy).map (fun c => { L with upper3 := c })
    else
      (drawTile w h fl L.lower3 tileId3 dx dy).map (fun c => { L with lower3 := c })

/-- The full-map cell walk of _paintAllTiles. -/
def cellListFull (cfg : MapConfig) : List (Int × Int) :=
  (List.range cfg.mapHeight.toNat).flatMap (fun y =>
    (List.range cfg.mapWidth.toNat).map (fun x => ((x : Int), (y : Int))))

/-- The viewport cell walk of _paintAllTiles: one overscan row and column. -/
def cellListViewport (cfg : MapConfig) : List (Int × Int) :=
  let tileCols := ⌈cfg.width / cfg.tileWidth⌉ + 1
  let tileRows := ⌈cfg.height / cfg.tileHeight⌉ + 1
  (List.range tileRows.toNat).flatMap (fun y =>
    (List.range tileCols.toNat).map (fun x => ((x : Int), (y : Int))))

/-- ShaderTilemap._paintAllTiles: clear all nine layers, then repaint the
whole map (paintAll mode, with start 0 0) or the viewport window. -/
def paintAllTiles (cfg : MapConfig) (paintAllFlag : Bool)
    (startX startY : Int) (L : Layers) : Option Layers :=
  let L0 := clearAllLayers L
  if paintAllFlag then
    (cellListFull cfg).foldlM (fun L xy => paintCell cfg L 0 0 xy.1 xy.2) L0
  else
    (cellListViewport cfg).foldlM
      (fun L xy => paintCell cfg L startX startY xy.1 xy.2) L0

/-- The frame-independent cyclic counter of the source. -/
structure CounterInterpolator where
  current : ℚ
  cumulated : ℚ
  bound : ℚ
  start : ℚ
  inteval : ℚ
  deriving DecidableEq

/-- The DefaultFps constant of the source. -/
def DefaultFps : ℚ := 60

/-- Constructor of CounterInterpolator. -/
def newCounterInterpolator (bound : ℚ) (start : ℚ := 0)
    (inteval : ℚ := 1 / DefaultFps) : CounterInterpolator :=
  { current := start, cumulated := 0, bound := bound, start := start,
    inteval := inteval }

/-- CounterInterpolator.updateDelta: accumulate the elapsed time, advance by
the whole number of intervals it covers, keep the fractional remainder. -/
def CounterInterpolator.updateDelta (c : CounterInterpolator) (delta : ℚ) :
    CounterInterpolator :=
  let cum := c.cumulated + delta
  if c.inteval ≤ cum then
    let cnt : Int := ⌊cum / c.inteval⌋
    { c with current := jsFmod (c.current + (cnt : ℚ)) c.bound,
             cumulated := cum - (cnt : ℚ) * c.inteval }
  else { c with cumulated := cum }

/-- The animation counter of the abstract Tilemap class:
new CounterInterpolator(12, 0, 30 / DefaultFps). -/
def animationCountInit : CounterInterpolator :=
  newCounterInterpolator 12 0 (30 / DefaultFps)

/-- The animation offsets computed by Tilemap.updateDelta from the current
animation frame: x is the remapped frame % 4 times the tile width, y is
frame % 3 times the tile height. -/
def updateDeltaOffsets (animationFrame : ℚ) (tileWidth tileHeight : ℚ) :
    ℚ × ℚ :=
  let af := jsFmod animationFrame 4
  let af := if af = 3 then 1 else af
  (af * tileWidth, jsFmod animationFrame 3 * tileHeight)

/-- Full renderer state of a ShaderTilemap. -/
structure ShaderState where
  cfg : MapConfig
  originX : ℚ
  originY : ℚ
  roundPixels : Bool
  paintAll : Bool
  lastStartX : Option Int
  lastStartY : Option Int
  layers : Layers
  childOrder : List LayerId
  animationCount : CounterInterpolator
  animationFrame : ℚ
  deriving DecidableEq

/-- The effective origin coordinate: floored when roundPixels is set. -/
def originPix (roundPixels : Bool) (v : ℚ) : ℚ :=
  if roundPixels then ((⌊v⌋ : Int) : ℚ) else v

/-- The tile-aligned viewport start column computed by _repaint. -/
def repaintStartX (st : ShaderState) : Int :=
  ⌊(originPix st.roundPixels st.originX - st.cfg.margin) / st.cfg.tileWidth⌋

/-- The tile-aligned viewport start row computed by _repaint. -/
def repaintStartY (st : ShaderState) : Int :=
  ⌊(originPix st.roundPixels st.originY - st.cfg.margin) / st.cfg.tileHeight⌋

/-- ShaderTilemap._updateLayerPositions: positions every lower and upper
layer and the shadow layer at the tile-aligned start minus the origin. -/
def updateLayerPositions (st : ShaderState) (startX startY : Int) :
    ShaderState :=
  let ox := originPix st.roundPixels st.originX
  let oy := originPix st.roundPixels st.originY
  let px := (startX : ℚ) * st.cfg.tileWidth - ox
  let py := (startY : ℚ) * st.cfg.tileHeight - oy
  let setPos := fun (c : Composite) => { c with posX := px, posY := py }
  { st with layers :=
      { lower0 := setPos st.layers.lower0, lower1 := setPos st.layers.lower1,
        lower2 := setPos st.layers.lower2, lower3 := setPos st.layers.lower3,
        upper0 := setPos st.layers.upper0, upper1 := setPos st.layers.upper1,
        upper2 := setPos st.layers.upper2, upper3 := setPos st.layers.upper3,
        shadow := setPos st.layers.shadow } }

/-- ShaderTilemap._repaint: in paintAll mode only a forced call repaints; in
viewport mode the tile-aligned start is compared against the last painted
start and an unchanged unforced start skips the repaint. -/
def shaderRepaint (force : Bool) (st : ShaderState) : Option ShaderState :=
  if st.paintAll then
    let st1 := updateLayerPositions st 0 0
    if force then
      (paintAllTiles st1.cfg true 0 0 st1.layers).map
        (fun L => { st1 with layers := L })
    else some st1
  else
    let startX := repaintStartX st
    let startY := repaintStartY st
    let st1 := updateLayerPositions st startX startY
    if force = true ∨ st1.lastStartX ≠ some startX ∨
        st1.lastStartY ≠ some startY then
      (paintAllTiles st1.cfg false startX startY st1.layers).map
        (fun L => { st1 with lastStartX := some startX,
                             lastStartY := some startY, layers := L })
    else some st1

/-- ShaderTilemap.updateTileAnim: assigns the animation offset pair to the
four lower and four upper layers (the shadow layer is not animated). -/
def shaderUpdateTileAnim (st : ShaderState) (x y : ℚ) : ShaderState :=
  let setA := fun (c : Composite) => { c with tileAnim := (x, y) }
  { st with layers :=
      { lower0 := setA st.layers.lower0, lower1 := setA st.layers.lower1,
        lower2 := setA st.layers.lower2, lower3 := setA st.layers.lower3,
        upper0 := setA st.layers.upper0, upper1 := setA st.layers.upper1,
        upper2 := setA st.layers.upper2, upper3 := setA st.layers.upper3,
        shadow := st.layers.shadow } }

/-- Tilemap.updateDelta: advance the animation counter, expose its value as
the animation frame and push the derived offsets into the layers. -/
def tilemapUpdateDelta (st : ShaderState) (delta : ℚ) : ShaderState :=
  let ac := st.animationCount.updateDelta delta
  let st := { st with animationCount := ac, animationFrame := ac.current }
  let off := updateDeltaOffsets st.animationFrame st.cfg.tileWidth
    st.cfg.tileHeight
  shaderUpdateTileAnim st off.1 off.2

/-- The abstract Tilemap constructor configuration: tile size 48, margin 20,
screen size enlarged by twice the margin, no map data yet. -/
def defaultMapConfig (width height : ℚ) : MapConfig :=
  { mapWidth := 0, mapHeight := 0, mapData := none, flags := [],
    horizontalWrap := false, verticalWrap := false,
    tileWidth := 48, tileHeight := 48, margin := 20,
    width := width + 20 * 2, height := height + 20 * 2 }

/-- Tilemap.setData. -/
def setData (cfg : MapConfig) (width height : Int) (data : List Int) :
    MapConfig :=
  { cfg with mapWidth := width, mapHeight := height, mapData := some data }

/-- The ShaderTilemap state right after the field initializers: nine fresh
layers added in the constructor order. -/
def newShaderState (cfg : MapConfig) (paintAll : Bool) : ShaderState :=
  { cfg := cfg, originX := 0, originY := 0, roundPixels := false,
    paintAll := paintAll, lastStartX := none, lastStartY := none,
    layers := initLayers, childOrder := constructorChildOrder,
    animationCount := animationCountInit, animationFrame := 0 }

/-- The ShaderTilemap constructor: field initialization followed by
_createLayers (a forced repaint) and refresh (another forced repaint). -/
def mkShaderTilemap (cfg : MapConfig) (paintAll : Bool) :
    Option ShaderState := do
  let s1 ← shaderRepaint true (newShaderState cfg paintAll)
  shaderRepaint true s1

/-- The command lists of every buffer of every composite layer, in display
order, as compared by the idempotence property. -/
def commandLists (st : ShaderState) : List (List (List PointStruct)) :=
  [st.layers.lower0.children.map (·.pointsBuf),
   st.layers.lower1.children.map (·.pointsBuf),
   st.layers.shadow.children.map (·.pointsBuf),
   st.layers.lower2.children.map (·.pointsBuf),
   st.layers.lower3.children.map (·.pointsBuf),
   st.layers.upper0.children.map (·.pointsBuf),
   st.layers.upper1.children.map (·.pointsBuf),
   st.layers.upper2.children.map (·.pointsBuf),
   st.layers.upper3.children.map (·.pointsBuf)]

/-- The ten classifications of the band-classification property. -/
inductive TileClass where
  | inv
  | b
  | c
  | d
  | e
  | a5
  | a1
  | a2
  | a3
  | a4
  deriving DecidableEq, Fintype

/-- Membership of a tile ID in one of the nine documented bands, each tied
to the band constants and checkers of the source. -/
def bandHolds : TileClass → Int → Prop
  | .inv, _ => False
  | .b, id => TILE_ID_B ≤ id ∧ id < TILE_ID_C
  | .c, id => TILE_ID_C ≤ id ∧ id < TILE_ID_D
  | .d, id => TILE_ID_D ≤ id ∧ id < TILE_ID_E
  | .e, id => TILE_ID_E ≤ id ∧ id < 1024
  | .a5, id => isTileA5 id = true
  | .a1, id => isTileA1 id = true
  | .a2, id => isTileA2 id = true
  | .a3, id => isTileA3 id = true
  | .a4, id => isTileA4 id = true

instance (cls : TileClass) (id : Int) : Decidable (bandHolds cls id) := by
  cases cls <;> dsimp only [bandHolds] <;> infer_instance

/-- Membership in at least one documented band. -/
def someBand (id : Int) : Prop :=
  bandHolds .b id ∨ bandHolds .c id ∨ bandHolds .d id ∨ bandHolds .e id ∨
    bandHolds .a5 id ∨ bandHolds .a1 id ∨ bandHolds .a2 id ∨
    bandHolds .a3 id ∨ bandHolds .a4 id

instance (id : Int) : Decidable (someBand id) := by
  unfold someBand; infer_instance

/-- The classification exactly as the claim words it: the bands with their
documented ranges (band B starting at 0) and invisible covering the IDs the
source treats as not visible together with the IDs in no band. -/
def claimHolds : TileClass → Int → Prop
  | .inv, id => isVisibleTile id = false ∨ ¬someBand id
  | cls, id => bandHolds cls id

instance (cls : TileClass) (id : Int) : Decidable (claimHolds cls id) := by
  cases cls <;> dsimp only [claimHolds] <;> infer_instance

/-- The amended classification: band B keeps only its visible part (0, 256),
so that the invisible ID 0 no longer carries two classifications. -/
def amendedHolds : TileClass → Int → Prop
  | .inv, id => isVisibleTile id = false ∨ ¬someBand id
  | .b, id => TILE_ID_B < id ∧ id < TILE_ID_C
  | cls, id => bandHolds cls id

instance (cls : TileClass) (id : Int) : Decidable (amendedHolds cls id) := by
  cases cls <;> dsimp only [amendedHolds] <;> infer_instance

/-- Classification function used to exhibit the unique class of an ID. -/
def classify (id : Int) : TileClass :=
  if 0 < id ∧ id < 256 then .b
  else if 256 ≤ id ∧ id < 512 then .c
  else if 512 ≤ id ∧ id < 768 then .d
  else if 768 ≤ id ∧ id < 1024 then .e
  else if 1536 ≤ id ∧ id < 2048 then .a5
  else if 2048 ≤ id ∧ id < 2816 then .a1
  else if 2816 ≤ id ∧ id < 4352 then .a2
  else if 4352 ≤ id ∧ id < 5888 then .a3
  else if 5888 ≤ id ∧ id < 8192 then .a4
  else .inv

/-- The animation-offset formula exactly as the specification words it:
column floor(frame / 4) mod 3 scaled by the tile width, row frame mod 4
with 3 remapped to 1 scaled by the tile height. -/
def specUpdateDeltaOffsets (animationFrame : ℚ) (tileWidth tileHeight : ℚ) :
    ℚ × ℚ :=
  let col := jsFmod ((⌊animationFrame / 4⌋ : Int) : ℚ) 3
  let row := jsFmod animationFrame 4
  let row := if row = 3 then 1 else row
  (col * tileWidth, row * tileHeight)

/-- A 768 by 768 tileset texture used by the concrete fixtures. -/
def tex768 : Texture := ⟨0, 0, 768, 768, 768, 768, 1⟩

/-- A composite layer holding exactly one empty buffer. -/
def oneBufferLayer : Composite :=
  { newComposite with children := [newTilemap tex768] }

/-- A flags table marking tile ID 2820 as a table tile. -/
def tableFlags2820 : List Nat := List.replicate 2820 0 ++ [0x80]

/-- A batch buffer holding one concrete draw command. -/
def tmOneQuad : Tilemap :=
  (newTilemap ⟨0, 0, 48, 48, 768, 768, 5⟩).tile none 10 20
    { u := some 96, v := some 48, tileWidth := some 48, tileHeight := some 48 }

/-- A previously built geometry whose arrays hold exactly one quad. -/
def geomOneQuadFull : Geometry :=
  ⟨List.replicate 8 1, List.replicate 8 1, List.replicate 6 7⟩

/-- A concrete 1 by 1 map: one A2 autotile on plane 0, shadow bits 3. -/
def cfgOneCell : MapConfig :=
  setData (defaultMapConfig 48 48) 1 1 [2816, 0, 0, 0, 3]

/-- A renderer over the 1 by 1 map in paintAll mode. -/
def stOneCell : ShaderState := newShaderState cfgOneCell true

/-- A renderer over the 1 by 1 map in viewport mode. -/
def stOneCellViewport : ShaderState := newShaderState cfgOneCell false

/-- Well-formedness of a geometry as every build produces it: uvs as long as
positions and indices six eighths of that. -/
def GeomWF (g : Geometry) : Prop :=
  g.uvs.length = g.positions.length ∧
    8 * g.indices.length = 6 * g.positions.length

/-- The command counts of all buffers of a composite layer. -/
def bufLens (cs : Composite) : List Nat :=
  cs.children.map (·.pointsBuf.length)

/-- A previously built geometry strictly larger than one quad. -/
def geomBig : Geometry :=
  ⟨List.replicate 9 1, List.replicate 9 1, List.replicate 7 7⟩

/-- The six indices the write loop emits for quad i. -/
def quadIndices (i : Nat) : List Nat :=
  [i * 4, i * 4 + 1, i * 4 + 2, i * 4, i * 4 + 2, i * 4 + 3]

/-- The index stream emitted for quads k, k + 1, ..., k + m - 1. -/
def patFrom (k m : Nat) : List Nat :=
  match m with
  | 0 => []
  | Nat.succ m => quadIndices k ++ patFrom (k + 1) m

theorem isVisibleTile_iff (id : Int) :
    isVisibleTile id = true ↔ 0 < id ∧ id < 8192 := by
  simp [isVisibleTile, TILE_ID_MAX]

theorem isAutotile_iff (id : Int) : isAutotile id = true ↔ 2048 ≤ id := by
  simp [isAutotile, TILE_ID_A1]

theorem isTileA1_iff (id : Int) :
    isTileA1 id = true ↔ 2048 ≤ id ∧ id < 2816 := by
  simp [isTileA1, TILE_ID_A1, TILE_ID_A2]

theorem isTileA2_iff (id : Int) :
    isTileA2 id = true ↔ 2816 ≤ id ∧ id < 4352 := by
  simp [isTileA2, TILE_ID_A2, TILE_ID_A3]

theorem isTileA3_iff (id : Int) :
    isTileA3 id = true ↔ 4352 ≤ id ∧ id < 5888 := by
  simp [isTileA3, TILE_ID_A3, TILE_ID_A4]

theorem isTileA4_iff (id : Int) :
    isTileA4 id = true ↔ 5888 ≤ id ∧ id < 8192 := by
  simp [isTileA4, TILE_ID_A4, TILE_ID_MAX]

theorem isTileA5_iff (id : Int) :
    isTileA5 id = true ↔ 1536 ≤ id ∧ id < 2048 := by
  simp [isTileA5, TILE_ID_A5, TILE_ID_A1]

theorem someBand_iff (id : Int) :
    someBand id ↔ (0 ≤ id ∧ id < 1024) ∨ (1536 ≤ id ∧ id < 8192) := by
  unfold someBand
  simp only [bandHolds, isTileA1_iff, isTileA2_iff, isTileA3_iff,
    isTileA4_iff, isTileA5_iff, TILE_ID_B, TILE_ID_C, TILE_ID_D, TILE_ID_E]
  omega

theorem isVisibleTile_eq_false (id : Int) :
    isVisibleTile id = false ↔ id ≤ 0 ∨ 8192 ≤ id := by
  have h := isVisibleTile_iff id
  cases hb : isVisibleTile id <;> simp_all <;> omega

theorem ediv_eq_div (a b : Int) : a.ediv b = a / b := rfl

theorem emod_eq_mod (a b : Int) : a.emod b = a % b := rfl

set_option maxHeartbeats 1600000 in
theorem amendedHolds_iff_classify (cls : TileClass) (id : Int) :
    amendedHolds cls id ↔ classify id = cls := by
  cases cls <;>
    simp only [amendedHolds, bandHolds, someBand_iff, isTileA1_iff,
      isTileA2_iff, isTileA3_iff, isTileA4_iff, isTileA5_iff, TILE_ID_B,
      TILE_ID_C, TILE_ID_D, TILE_ID_E, isVisibleTile_eq_false,
      classify] <;>
    (split_ifs <;> simp <;> omega)

/-- C1, counterexample.  The claim as stated fails twice: at tile ID 0 both
the invisible classification (IDs at most 0 are invisible) and band B (the
documented range starting at 0) hold, so exactly one classification does not
hold; and a no-band ID such as 1024 is not silently skipped by the renderer:
on a layer holding one buffer, _drawTile appends one draw command for it. -/
theorem c1_counterexample :
    (claimHolds .inv 0 ∧ claimHolds .b 0) ∧
      (drawTile 48 48 [] oneBufferLayer 1024 0 0).map
        (fun c => c.children.map (·.pointsBuf.length)) = some [1] := by
  constructor
  · exact ⟨by decide, by decide⟩
  · simp [drawTile, drawNormalTile, applyCalls, Composite.tile, getChildI,
      setChildI, oneBufferLayer, newComposite, newTilemap, Tilemap.tile,
      drawNormalTileCall, isVisibleTile, isAutotile, TILE_ID_MAX, TILE_ID_A1,
      normalTileSetNumber, isTileA5, TILE_ID_A5, ediv_eq_div]

/-- C1, amended: for every integer ID in [-1000, 10000] exactly one of the
classifications invisible, B, C, D, E, A5, A1, A2, A3, A4 holds, where B is
restricted to its visible part (0, 256) and invisible covers the IDs that
are not visible (at most 0 or at least 8192) together with the IDs of the
band gap [1024, 1536); such gap IDs are classified invisible but are not
skipped by the renderer (see the counterexample). -/
theorem c1_band_classification (id : Int) (h1 : -1000 ≤ id)
    (h2 : id ≤ 10000) : ∃! cls, amendedHolds cls id := by
  refine ⟨classify id, ?_, ?_⟩
  · exact (amendedHolds_iff_classify (classify id) id).2 rfl
  · intro y hy
    exact ((amendedHolds_iff_classify y id).1 hy).symm

/-- C1, witness of the amended theorem at tile ID 3. -/
theorem c1_band_classification_witness :
    (-1000 ≤ (3 : Int) ∧ (3 : Int) ≤ 10000) ∧
      ∃! cls, amendedHolds cls 3 :=
  ⟨⟨by norm_num, by norm_num⟩,
    c1_band_classification 3 (by norm_num) (by norm_num)⟩

/-- C2, counterexample.  The claimed slot order A5, A1, A2, A3, A4 for slots
0 to 4 fails on the code: an A5 tile (ID 1536) is routed to slot 4, not 0,
and an A1 autotile (ID 2048) is routed to slot 0, not 1. -/
theorem c2_counterexample :
    (drawTileSlot [] 1536 = 4 ∧ drawTileSlot [] 1536 ≠ 0) ∧
      (drawTileSlot [] 2048 = 0 ∧ drawTileSlot [] 2048 ≠ 1) := by
  refine ⟨⟨by decide, by decide⟩, by decide, by decide⟩

/-- C2, amended: the texture-slot order fixed by the decoder is A1, A2, A3,
A4, A5, B, C, D, E for slot indices 0 through 8: autotile bands A1 to A4 go
to slots 0 to 3, A5 to slot 4 and the normal bands B to E to slots 5 to 8
(via 5 + floor(id / 256)). -/
theorem c2_slot_order (flags : List Nat) (id : Int) :
    (isTileA1 id = true → drawTileSlot flags id = 0) ∧
    (isTileA2 id = true → drawTileSlot flags id = 1) ∧
    (isTileA3 id = true → drawTileSlot flags id = 2) ∧
    (isTileA4 id = true → drawTileSlot flags id = 3) ∧
    (isTileA5 id = true → drawTileSlot flags id = 4) ∧
    (TILE_ID_B < id ∧ id < TILE_ID_C → drawTileSlot flags id = 5) ∧
    (TILE_ID_C ≤ id ∧ id < TILE_ID_D → drawTileSlot flags id = 6) ∧
    (TILE_ID_D ≤ id ∧ id < TILE_ID_E → drawTileSlot flags id = 7) ∧
    (TILE_ID_E ≤ id ∧ id < 1024 → drawTileSlot flags id = 8) := by
  simp only [TILE_ID_B, TILE_ID_C, TILE_ID_D, TILE_ID_E]
  refine ⟨?_, ?_, ?_, ?_, ?_, ?_, ?_, ?_, ?_⟩ <;> intro h
  · have hr := (isTileA1_iff id).1 h
    have hAuto : isAutotile id = true := by rw [isAutotile_iff]; omega
    simp only [drawTileSlot, hAuto, if_true, autotileParams, h, if_pos]
    split_ifs <;> rfl
  · have hr := (isTileA2_iff id).1 h
    have hAuto : isAutotile id = true := by rw [isAutotile_iff]; omega
    have hA1 : isTileA1 id = false := by
      rw [Bool.eq_false_iff, Ne, isTileA1_iff]; omega
    simp [drawTileSlot, hAuto, autotileParams, hA1, h]
  · have hr := (isTileA3_iff id).1 h
    have hAuto : isAutotile id = true := by rw [isAutotile_iff]; omega
    have hA1 : isTileA1 id = false := by
      rw [Bool.eq_false_iff, Ne, isTileA1_iff]; omega
    have hA2 : isTileA2 id = false := by
      rw [Bool.eq_false_iff, Ne, isTileA2_iff]; omega
    simp [drawTileSlot, hAuto, autotileParams, hA1, hA2, h]
  · have hr := (isTileA4_iff id).1 h
    have hAuto : isAutotile id = true := by rw [isAutotile_iff]; omega
    have hA1 : isTileA1 id = false := by
      rw [Bool.eq_false_iff, Ne, isTileA1_iff]; omega
    have hA2 : isTileA2 id = false := by
      rw [Bool.eq_false_iff, Ne, isTileA2_iff]; omega
    have hA3 : isTileA3 id = false := by
      rw [Bool.eq_false_iff, Ne, isTileA3_iff]; omega
    simp [drawTileSlot, hAuto, autotileParams, hA1, hA2, hA3, h]
  · have hr := (isTileA5_iff id).1 h
    have hAuto : isAutotile id = false := by
      rw [Bool.eq_false_iff, Ne, isAutotile_iff]; omega
    simp [drawTileSlot, hAuto, normalTileSetNumber, h]
  · have hAuto : isAutotile id = false := by
      rw [Bool.eq_false_iff, Ne, isAutotile_iff]; omega
    have hA5 : isTileA5 id = false := by
      rw [Bool.eq_false_iff, Ne, isTileA5_iff]; omega
    simp only [drawTileSlot, hAuto, Bool.false_eq_true, if_false,
      normalTileSetNumber, hA5, ediv_eq_div]
    omega
  · have hAuto : isAutotile id = false := by
      rw [Bool.eq_false_iff, Ne, isAutotile_iff]; omega
    have hA5 : isTileA5 id = false := by
      rw [Bool.eq_false_iff, Ne, isTileA5_iff]; omega
    simp only [drawTileSlot, hAuto, Bool.false_eq_true, if_false,
      normalTileSetNumber, hA5, ediv_eq_div]
    omega
  · have hAuto : isAutotile id = false := by
      rw [Bool.eq_false_iff, Ne, isAutotile_iff]; omega
    have hA5 : isTileA5 id = false := by
      rw [Bool.eq_false_iff, Ne, isTileA5_iff]; omega
    simp only [drawTileSlot, hAuto, Bool.false_eq_true, if_false,
      normalTileSetNumber, hA5, ediv_eq_div]
    omega
  · have hAuto : isAutotile id = false := by
      rw [Bool.eq_false_iff, Ne, isAutotile_iff]; omega
    have hA5 : isTileA5 id = false := by
      rw [Bool.eq_false_iff, Ne, isTileA5_iff]; omega
    simp only [drawTileSlot, hAuto, Bool.false_eq_true, if_false,
      normalTileSetNumber, hA5, ediv_eq_div]
    omega

theorem qtrunc_of_nonneg {x : ℚ} (h : 0 ≤ x) : qtrunc x = ⌊x⌋ := if_pos h

theorem floor_natCast_div (n m : ℕ) (hm : 0 < m) :
    ⌊(n : ℚ) / (m : ℚ)⌋ = ((n / m : ℕ) : ℤ) := by
  have hm' : (0 : ℚ) < m := by exact_mod_cast hm
  have key : (m : ℚ) * ((n / m : ℕ) : ℚ) + ((n % m : ℕ) : ℚ) = (n : ℚ) := by
    exact_mod_cast congrArg (Nat.cast : ℕ → ℚ) (Nat.div_add_mod n m)
  have hr0 : (0 : ℚ) ≤ ((n % m : ℕ) : ℚ) := by positivity
  have hrm : ((n % m : ℕ) : ℚ) < m := by exact_mod_cast Nat.mod_lt n hm
  rw [Int.floor_eq_iff, Int.cast_natCast]
  constructor
  · rw [le_div_iff₀ hm']
    linarith
  · rw [div_lt_iff₀ hm']
    linarith

theorem jsFmod_natCast (n m : ℕ) (hm : 0 < m) :
    jsFmod (n : ℚ) (m : ℚ) = ((n % m : ℕ) : ℚ) := by
  have key : (m : ℚ) * ((n / m : ℕ) : ℚ) + ((n % m : ℕ) : ℚ) = (n : ℚ) := by
    exact_mod_cast congrArg (Nat.cast : ℕ → ℚ) (Nat.div_add_mod n m)
  unfold jsFmod
  rw [qtrunc_of_nonneg (by positivity), floor_natCast_div n m hm,
    Int.cast_natCast]
  linarith

theorem jsFmod_bounds {a b : ℚ} (ha : 0 ≤ a) (hb : 0 < b) :
    0 ≤ jsFmod a b ∧ jsFmod a b < b := by
  unfold jsFmod
  rw [qtrunc_of_nonneg (div_nonneg ha hb.le)]
  have h1 : (⌊a / b⌋ : ℚ) ≤ a / b := Int.floor_le _
  have h2 : a / b < ⌊a / b⌋ + 1 := Int.lt_floor_add_one _
  have hba : b * (a / b) = a := by field_simp
  constructor
  · nlinarith
  · nlinarith

theorem jsFmod_self {a b : ℚ} (ha : 0 ≤ a) (hab : a < b) : jsFmod a b = a := by
  have hb : 0 < b := lt_of_le_of_lt ha hab
  unfold jsFmod
  rw [qtrunc_of_nonneg (div_nonneg ha hb.le)]
  have h0 : ⌊a / b⌋ = 0 := by
    rw [Int.floor_eq_zero_iff]
    constructor
    · exact div_nonneg ha hb.le
    · rw [div_lt_iff₀ hb]
      linarith
  rw [h0]
  simp

/-- C2, witness of the amended theorem: the nine slots at concrete IDs. -/
theorem c2_slot_order_witness :
    drawTileSlot [] 2048 = 0 ∧ drawTileSlot [] 2816 = 1 ∧
      drawTileSlot [] 4352 = 2 ∧ drawTileSlot [] 5888 = 3 ∧
      drawTileSlot [] 1536 = 4 ∧ drawTileSlot [] 1 = 5 ∧
      drawTileSlot [] 256 = 6 ∧ drawTileSlot [] 512 = 7 ∧
      drawTileSlot [] 768 = 8 :=
  ⟨(c2_slot_order [] 2048).1 (by decide),
   (c2_slot_order [] 2816).2.1 (by decide),
   (c2_slot_order [] 4352).2.2.1 (by decide),
   (c2_slot_order [] 5888).2.2.2.1 (by decide),
   (c2_slot_order [] 1536).2.2.2.2.1 (by decide),
   (c2_slot_order [] 1).2.2.2.2.2.1 (by decide),
   (c2_slot_order [] 256).2.2.2.2.2.2.1 (by decide),
   (c2_slot_order [] 512).2.2.2.2.2.2.2.1 (by decide),
   (c2_slot_order [] 768).2.2.2.2.2.2.2.2 (by decide)⟩

/-- C6, counterexample.  At animation frame 1 the code exposes offsets
(tileWidth, tileHeight) = (48, 48): the horizontal axis is the remapped
frame % 4 and the vertical axis frame % 3.  The claimed formula (column
floor(frame / 4) % 3 scaled by width, remapped frame % 4 scaled by height)
would give (0, 48) instead. -/
theorem c6_counterexample :
    updateDeltaOffsets 1 48 48 = (48, 48) ∧
      specUpdateDeltaOffsets 1 48 48 = (0, 48) ∧
      updateDeltaOffsets 1 48 48 ≠ specUpdateDeltaOffsets 1 48 48 := by
  norm_num [updateDeltaOffsets, specUpdateDeltaOffsets, jsFmod, qtrunc]

/-- C6, amended: the offsets passed to the tile decoder by updateDelta are
x = (frame % 4 with 3 remapped to 1) * tileWidth, the 0, 1, 2, 1 ping-pong
water cycle on the horizontal axis, and y = (frame % 3) * tileHeight, the
3-frame cycle on the vertical axis; the pair is periodic in the frame with
period 12, the bound of the animation counter. -/
theorem c6_animation_offsets (f : ℕ) (w h : ℚ) :
    updateDeltaOffsets (f : ℚ) w h =
      ((([0, 1, 2, 1].getD (f % 4) 0 : ℕ) : ℚ) * w,
        ((f % 3 : ℕ) : ℚ) * h) ∧
    updateDeltaOffsets ((f + 12 : ℕ) : ℚ) w h =
      updateDeltaOffsets (f : ℚ) w h := by
  have base : ∀ g : ℕ, updateDeltaOffsets (g : ℚ) w h =
      ((([0, 1, 2, 1].getD (g % 4) 0 : ℕ) : ℚ) * w,
        ((g % 3 : ℕ) : ℚ) * h) := by
    intro g
    unfold updateDeltaOffsets
    have e4 := jsFmod_natCast g 4 (by norm_num)
    have e3 := jsFmod_natCast g 3 (by norm_num)
    simp only [Nat.cast_ofNat] at e4 e3
    rw [e4, e3]
    have h4 : g % 4 = 0 ∨ g % 4 = 1 ∨ g % 4 = 2 ∨ g % 4 = 3 := by omega
    rcases h4 with h4 | h4 | h4 | h4 <;> rw [h4] <;> norm_num
  refine ⟨base f, ?_⟩
  rw [base (f + 12), base f]
  have e4 : (f + 12) % 4 = f % 4 := by omega
  have e3 : (f + 12) % 3 = f % 3 := by omega
  rw [e4, e3]

/-- C7, counterexample.  The animation clock does not advance one step per
1/30 second: its interval is 30 / DefaultFps = 1/2 second, so a whole 1/30
second of elapsed time leaves the counter at 0 (the claim predicts 1),
while 1/2 second advances it by exactly one step (the claim predicts 15
steps, i.e. value 3 after wrapping at 12). -/
theorem c7_counterexample :
    (animationCountInit.updateDelta (1 / 30)).current = 0 ∧
      (animationCountInit.updateDelta (1 / 2)).current = 1 ∧
      (1 : ℚ) ≠ 3 := by
  norm_num [animationCountInit, newCounterInterpolator, DefaultFps,
    CounterInterpolator.updateDelta, jsFmod, qtrunc]

/-- C7, amended: the animation clock is a cyclic counter bounded at 12 that
advances one step per 1/2 second (interval 30 / DefaultFps with DefaultFps
60, i.e. 2 steps per second regardless of tick rate), and each update keeps
exactly the fractional leftover below one interval, so no elapsed time is
lost: the new leftover plus the consumed steps times 1/2 equals the old
leftover plus the elapsed delta. -/
theorem c7_animation_clock (c : CounterInterpolator) (delta : ℚ)
    (hb : c.bound = 12) (hi : c.inteval = 30 / DefaultFps)
    (hcur0 : 0 ≤ c.current) (hcur1 : c.current < 12)
    (hcum0 : 0 ≤ c.cumulated) (hcum1 : c.cumulated < c.inteval)
    (hd : 0 ≤ delta) :
    animationCountInit.bound = 12 ∧
    animationCountInit.inteval = 1 / 2 ∧
    ∃ cnt : ℤ, 0 ≤ cnt ∧
      (c.updateDelta delta).current = jsFmod (c.current + (cnt : ℚ)) 12 ∧
      0 ≤ (c.updateDelta delta).current ∧
      (c.updateDelta delta).current < 12 ∧
      (c.updateDelta delta).cumulated + (cnt : ℚ) * (1 / 2) =
        c.cumulated + delta ∧
      0 ≤ (c.updateDelta delta).cumulated ∧
      (c.updateDelta delta).cumulated < 1 / 2 := by
  have hint : c.inteval = 1 / 2 := by
    rw [hi]; norm_num [DefaultFps]
  refine ⟨by decide, by norm_num [animationCountInit, newCounterInterpolator,
    DefaultFps], ?_⟩
  unfold CounterInterpolator.updateDelta
  by_cases hge : c.inteval ≤ c.cumulated + delta
  · rw [if_pos hge]
    dsimp only
    refine ⟨⌊(c.cumulated + delta) / c.inteval⌋, ?_, ?_, ?_, ?_, ?_, ?_, ?_⟩
    · have : (0 : ℚ) ≤ (c.cumulated + delta) / c.inteval := by
        rw [hint] at hge ⊢
        positivity
      exact_mod_cast Int.floor_nonneg.2 this
    · rw [hb]
    · have hcnt : (0 : ℚ) ≤ (⌊(c.cumulated + delta) / c.inteval⌋ : ℚ) := by
        exact_mod_cast Int.floor_nonneg.2 (by rw [hint] at hge ⊢; positivity)
      rw [hb]
      exact (jsFmod_bounds (by linarith) (by norm_num)).1
    · have hcnt : (0 : ℚ) ≤ (⌊(c.cumulated + delta) / c.inteval⌋ : ℚ) := by
        exact_mod_cast Int.floor_nonneg.2 (by rw [hint] at hge ⊢; positivity)
      rw [hb]
      exact (jsFmod_bounds (by linarith) (by norm_num)).2
    · rw [hint]
      ring
    · have heq : c.cumulated + delta -
          (⌊(c.cumulated + delta) / c.inteval⌋ : ℚ) * c.inteval =
          jsFmod (c.cumulated + delta) c.inteval := by
        unfold jsFmod
        rw [qtrunc_of_nonneg (by rw [hint]; positivity)]
        ring
      rw [heq]
      exact (jsFmod_bounds (by linarith) (by rw [hint]; norm_num)).1
    · have heq : c.cumulated + delta -
          (⌊(c.cumulated + delta) / c.inteval⌋ : ℚ) * c.inteval =
          jsFmod (c.cumulated + delta) c.inteval := by
        unfold jsFmod
        rw [qtrunc_of_nonneg (by rw [hint]; positivity)]
        ring
      rw [heq, ← hint]
      exact (jsFmod_bounds (by linarith) (by rw [hint]; norm_num)).2
  · rw [if_neg hge]
    dsimp only
    refine ⟨0, le_refl 0, ?_, hcur0, hcur1, ?_, by linarith, ?_⟩
    · rw [Int.cast_zero, add_zero, jsFmod_self hcur0 hcur1]
    · rw [Int.cast_zero]
      ring
    · rw [hint] at hge
      linarith [not_le.1 hge]

/-- C7, witness of the amended theorem: the initial animation counter
updated by 3/4 of a second. -/
theorem c7_animation_clock_witness :
    (0 ≤ (3 / 4 : ℚ)) ∧
      (animationCountInit.bound = 12 ∧
        animationCountInit.inteval = 1 / 2 ∧
        ∃ cnt : ℤ, 0 ≤ cnt ∧
          (animationCountInit.updateDelta (3 / 4)).current =
            jsFmod (animationCountInit.current + (cnt : ℚ)) 12 ∧
          0 ≤ (animationCountInit.updateDelta (3 / 4)).current ∧
          (animationCountInit.updateDelta (3 / 4)).current < 12 ∧
          (animationCountInit.updateDelta (3 / 4)).cumulated +
            (cnt : ℚ) * (1 / 2) = animationCountInit.cumulated + 3 / 4 ∧
          0 ≤ (animationCountInit.updateDelta (3 / 4)).cumulated ∧
          (animationCountInit.updateDelta (3 / 4)).cumulated < 1 / 2) :=
  ⟨by norm_num,
    c7_animation_clock animationCountInit (3 / 4) (by decide) rfl
      (by decide) (by decide) (by decide)
      (by norm_num [animationCountInit, newCounterInterpolator, DefaultFps])
      (by norm_num)⟩

theorem tile_pointsBuf_length (tm : Tilemap) (tex : Option Texture)
    (x y : ℚ) (opts : TileOptions) :
    (tm.tile tex x y opts).pointsBuf.length = tm.pointsBuf.length + 1 := by
  simp [Tilemap.tile]

/-- C9: for an integer slot reference other than the -1 shadow sentinel, a
draw command is appended to the buffer at that index when it exists; when it
does not but buffer 0 exists, the command goes to buffer 0; and when the
layer holds no buffers at all, the call returns its state unchanged.  The
shadow slot bookkeeping is untouched throughout. -/
theorem c9_numeric_routing (cs : Composite) (i : Int) (x y : ℚ)
    (opts : TileOptions) (hne : i ≠ -1) :
    (∀ tm, getChildI cs.children i = some tm →
      bufLens (cs.tile (.num i) x y opts) =
        (bufLens cs).set i.toNat (tm.pointsBuf.length + 1) ∧
      (cs.tile (.num i) x y opts).shadowId = cs.shadowId) ∧
    (getChildI cs.children i = none →
      ∀ tm0 rest, cs.children = tm0 :: rest →
        bufLens (cs.tile (.num i) x y opts) =
          (tm0.pointsBuf.length + 1) :: rest.map (·.pointsBuf.length) ∧
        (cs.tile (.num i) x y opts).shadowId = cs.shadowId) ∧
    (cs.children = [] → cs.tile (.num i) x y opts = cs) := by
  refine ⟨?_, ?_, ?_⟩
  · intro tm hget
    have hi : ¬i < 0 := by
      intro hlt
      simp [getChildI, hlt] at hget
    constructor
    · simp only [Composite.tile, if_neg hne, hget, bufLens, setChildI,
        if_neg hi, List.map_set, tile_pointsBuf_length]
    · simp only [Composite.tile, if_neg hne, hget]
  · intro hget tm0 rest hch
    rw [hch] at hget
    constructor
    · simp only [Composite.tile, if_neg hne, hget, hch, bufLens,
        List.map_cons, tile_pointsBuf_length]
    · simp only [Composite.tile, if_neg hne, hget, hch]
  · intro hch
    have hget : getChildI cs.children i = none := by
      rcases lt_or_le i 0 with hlt | hle
      · simp [getChildI, hlt]
      · simp [getChildI, not_lt.2 hle, hch]
    rw [hch] at hget
    simp only [Composite.tile, if_neg hne, hch, hget]

/-- C9, witness: slot 0 of a one-buffer layer receives the command and the
shadow slot is untouched. -/
theorem c9_numeric_routing_witness :
    ((0 : Int) ≠ -1) ∧
      bufLens (oneBufferLayer.tile (.num 0) 0 0 {}) = [1] ∧
      (oneBufferLayer.tile (.num 0) 0 0 {}).shadowId =
        oneBufferLayer.shadowId := by
  have h := (c9_numeric_routing oneBufferLayer 0 0 0 {} (by decide)).1
    (newTilemap tex768) (by decide)
  refine ⟨by decide, ?_, h.2⟩
  rw [h.1]
  decide

/-- C8, counterexample.  A previously built geometry whose arrays are large
enough for the current command count (capacity exactly equal: 8 floats for
one quad) is not reused: the condition positions.length <= 8n makes the
build allocate fresh zero-filled arrays instead of taking a view of the
existing storage, so reuse happens only when capacity strictly exceeds the
requirement. -/
theorem c8_counterexample :
    geomOneQuadFull.positions.length = 1 * 8 ∧
      allocGeometry (some geomOneQuadFull) 1 = freshGeometry 1 ∧
      allocGeometry (some geomOneQuadFull) 1 ≠
        ⟨geomOneQuadFull.positions.take (1 * 8),
          geomOneQuadFull.uvs.take (1 * 8),
          geomOneQuadFull.indices.take (1 * 6)⟩ := by
  refine ⟨by decide, by decide, by decide⟩

/-- C8, amended: the allocation prologue of the geometry build reuses the
supplied backing storage, taking only a prefix view of each array, exactly
when the existing positions array is strictly larger than the required
8n floats; when the capacity is at most 8n (including exact equality) or no
previous geometry is supplied, fresh zero-filled arrays of the exact
required size are allocated. -/
theorem c8_geometry_reuse (g : Geometry) (n : Nat) :
    (n * 8 < g.positions.length →
      (allocGeometry (some g) n).positions = g.positions.take (n * 8) ∧
      (allocGeometry (some g) n).uvs = g.uvs.take (n * 8) ∧
      (allocGeometry (some g) n).indices = g.indices.take (n * 6)) ∧
    (g.positions.length ≤ n * 8 →
      allocGeometry (some g) n = freshGeometry n) ∧
    allocGeometry none n = freshGeometry n := by
  refine ⟨?_, ?_, rfl⟩
  · intro hlt
    have : ¬g.positions.length ≤ n * 8 := by omega
    simp [allocGeometry, this]
  · intro hle
    simp [allocGeometry, hle]

/-- C8, witness: a 9-float positions array is strictly larger than one
quad's 8 floats, so the build takes prefix views of it. -/
theorem c8_geometry_reuse_witness :
    (1 * 8 < geomBig.positions.length) ∧
      (allocGeometry (some geomBig) 1).positions =
        geomBig.positions.take (1 * 8) :=
  ⟨by decide, ((c8_geometry_reuse geomBig 1).1 (by decide)).1⟩

theorem set_append_eq (P D : List Nat) (j v : Nat) :
    (P ++ D).set (P.length + j) v = P ++ D.set j v := by
  induction P with
  | nil => simp
  | cons p P ih =>
    have h : (p :: P).length + j = P.length + j + 1 := by
      simp [List.length_cons]
      omega
    rw [h, List.cons_append, List.set_cons_succ, ih, List.cons_append]

theorem set_append_of_eq (P D : List Nat) (n j v : Nat)
    (h : n = P.length + j) :
    (P ++ D).set n v = P ++ D.set j v := by
  rw [h, set_append_eq]

theorem write6_shift (P : List Nat) (k : Nat) (hP : P.length = 6 * k)
    (d0 d1 d2 d3 d4 d5 : Nat) (D' : List Nat) :
    write6 (P ++ (d0 :: d1 :: d2 :: d3 :: d4 :: d5 :: D')) k =
      P ++ (quadIndices k ++ D') := by
  unfold write6 quadIndices
  dsimp only
  rw [set_append_of_eq P _ (k * 6) 0 (k * 4) (by omega)]
  simp only [List.set]
  rw [set_append_of_eq P _ (k * 6 + 1) 1 (k * 4 + 1) (by omega)]
  simp only [List.set]
  rw [set_append_of_eq P _ (k * 6 + 2) 2 (k * 4 + 2) (by omega)]
  simp only [List.set]
  rw [set_append_of_eq P _ (k * 6 + 3) 3 (k * 4) (by omega)]
  simp only [List.set]
  rw [set_append_of_eq P _ (k * 6 + 4) 4 (k * 4 + 2) (by omega)]
  simp only [List.set]
  rw [set_append_of_eq P _ (k * 6 + 5) 5 (k * 4 + 3) (by omega)]
  simp only [List.set, List.cons_append, List.nil_append]

theorem foldl_write6_eq (m : Nat) : ∀ (k : Nat) (P D : List Nat),
    P.length = 6 * k → D.length = 6 * m →
    (List.range' k m).foldl write6 (P ++ D) = P ++ patFrom k m := by
  induction m with
  | zero =>
    intro k P D hP hD
    have hnil : D = [] := List.eq_nil_of_length_eq_zero (by omega)
    simp [hnil, patFrom]
  | succ m ih =>
    intro k P D hP hD
    obtain ⟨d0, d1, d2, d3, d4, d5, D', rfl⟩ :
        ∃ d0 d1 d2 d3 d4 d5 D',
          D = d0 :: d1 :: d2 :: d3 :: d4 :: d5 :: D' := by
      rcases D with _ | ⟨d0, _ | ⟨d1, _ | ⟨d2, _ | ⟨d3, _ | ⟨d4, _ | ⟨d5, D'⟩⟩⟩⟩⟩⟩ <;>
        simp at hD <;> first
          | omega
          | exact ⟨d0, d1, d2, d3, d4, d5, _, rfl⟩
    rw [List.range'_succ, List.foldl_cons, write6_shift P k hP,
      ← List.append_assoc,
      ih (k + 1) (P ++ quadIndices k) D'
        (by simp [quadIndices]; omega) (by simp at hD; omega)]
    simp [patFrom]

theorem mem_patFrom (m : Nat) : ∀ (k x : Nat),
    x ∈ patFrom k m → x < 4 * (k + m) := by
  induction m with
  | zero =>
    intro k x hx
    simp [patFrom] at hx
  | succ m ih =>
    intro k x hx
    simp only [patFrom, List.mem_append] at hx
    rcases hx with hx | hx
    · simp [quadIndices] at hx
      omega
    · have := ih (k + 1) x hx
      omega

theorem writeQuad_indices (tm : Tilemap) (g : Geometry)
    (ip : Nat × PointStruct) :
    (writeQuadGeom tm g ip).indices = write6 g.indices ip.1 := rfl

theorem write6_length (a : List Nat) (i : Nat) :
    (write6 a i).length = a.length := by
  simp [write6]

theorem writeQuad_pos_length (tm : Tilemap) (g : Geometry)
    (ip : Nat × PointStruct) :
    (writeQuadGeom tm g ip).positions.length = g.positions.length := by
  simp [writeQuadGeom]

theorem writeQuad_uvs_length (tm : Tilemap) (g : Geometry)
    (ip : Nat × PointStruct) :
    (writeQuadGeom tm g ip).uvs.length = g.uvs.length := by
  simp [writeQuadGeom]

theorem foldl_writeQuad_indices (tm : Tilemap)
    (l : List (Nat × PointStruct)) : ∀ g : Geometry,
    (l.foldl (writeQuadGeom tm) g).indices =
      (l.map Prod.fst).foldl write6 g.indices := by
  induction l with
  | nil => intro g; rfl
  | cons p l ih =>
    intro g
    simp only [List.foldl_cons, List.map_cons, ih, writeQuad_indices]

theorem foldl_writeQuad_pos_length (tm : Tilemap)
    (l : List (Nat × PointStruct)) : ∀ g : Geometry,
    (l.foldl (writeQuadGeom tm) g).positions.length =
      g.positions.length := by
  induction l with
  | nil => intro g; rfl
  | cons p l ih =>
    intro g
    simp only [List.foldl_cons, ih, writeQuad_pos_length]

theorem foldl_writeQuad_uvs_length (tm : Tilemap)
    (l : List (Nat × PointStruct)) : ∀ g : Geometry,
    (l.foldl (writeQuadGeom tm) g).uvs.length = g.uvs.length := by
  induction l with
  | nil => intro g; rfl
  | cons p l ih =>
    intro g
    simp only [List.foldl_cons, ih, writeQuad_uvs_length]

theorem allocGeometry_spec (prev : Option Geometry) (n : Nat)
    (hwf : ∀ g ∈ prev, GeomWF g) :
    (allocGeometry prev n).positions.length = n * 8 ∧
      (allocGeometry prev n).uvs.length = n * 8 ∧
      (allocGeometry prev n).indices.length = n * 6 := by
  match prev with
  | none => simp [allocGeometry, freshGeometry]
  | some g =>
    obtain ⟨h1, h2⟩ := hwf g (by simp)
    by_cases hle : g.positions.length ≤ n * 8
    · simp [allocGeometry, hle, freshGeometry]
    · simp only [allocGeometry, if_neg hle, List.length_take]
      omega

/-- C4: for a batch buffer holding n >= 1 commands and a previously built
(hence well-formed) geometry if any, the build emits exactly 8n position
floats, 8n uv floats and 6n indices, every emitted index is strictly below
4n, and the output is again well-formed. -/
theorem c4_geometry_invariants (tm : Tilemap) (prev : Option Geometry)
    (hn : 1 ≤ tm.pointsBuf.length) (hwf : ∀ g ∈ prev, GeomWF g) :
    (computeGeometriesBatched tm prev).positions.length =
      8 * tm.pointsBuf.length ∧
    (computeGeometriesBatched tm prev).uvs.length =
      8 * tm.pointsBuf.length ∧
    (computeGeometriesBatched tm prev).indices.length =
      6 * tm.pointsBuf.length ∧
    (∀ ix ∈ (computeGeometriesBatched tm prev).indices,
      ix < 4 * tm.pointsBuf.length) ∧
    GeomWF (computeGeometriesBatched tm prev) := by
  obtain ⟨hp, hu, hi⟩ :=
    allocGeometry_spec prev tm.pointsBuf.length hwf
  have key : computeGeometriesBatched tm prev =
      tm.pointsBuf.enum.foldl (writeQuadGeom tm)
        (allocGeometry prev tm.pointsBuf.length) := rfl
  have hind : (computeGeometriesBatched tm prev).indices =
      patFrom 0 tm.pointsBuf.length := by
    rw [key, foldl_writeQuad_indices, List.enum_map_fst,
      List.range_eq_range']
    have := foldl_write6_eq tm.pointsBuf.length 0 []
      (allocGeometry prev tm.pointsBuf.length).indices
      (by simp) (by omega)
    simpa using this
  have hplen : (computeGeometriesBatched tm prev).positions.length =
      tm.pointsBuf.length * 8 := by
    rw [key, foldl_writeQuad_pos_length, hp]
  have hulen : (computeGeometriesBatched tm prev).uvs.length =
      tm.pointsBuf.length * 8 := by
    rw [key, foldl_writeQuad_uvs_length, hu]
  have hilen : (computeGeometriesBatched tm prev).indices.length =
      tm.pointsBuf.length * 6 := by
    rw [key, foldl_writeQuad_indices, List.enum_map_fst,
      List.range_eq_range']
    have h6 : ∀ (l : List Nat) (a : List Nat),
        (l.foldl write6 a).length = a.length := by
      intro l
      induction l with
      | nil => intro a; rfl
      | cons x l ih => intro a; simp only [List.foldl_cons, ih, write6_length]
    rw [h6, hi]
  refine ⟨by omega, by omega, by omega, ?_, by constructor <;> omega⟩
  intro ix hix
  rw [hind] at hix
  have := mem_patFrom tm.pointsBuf.length 0 ix hix
  omega

/-- C4, witness: the build over a one-command buffer with no previous
geometry. -/
theorem c4_geometry_invariants_witness :
    (1 ≤ tmOneQuad.pointsBuf.length) ∧
      (computeGeometriesBatched tmOneQuad none).indices.length =
        6 * tmOneQuad.pointsBuf.length :=
  ⟨by simp [tmOneQuad, tile_pointsBuf_length],
    (c4_geometry_invariants tmOneQuad none
      (by simp [tmOneQuad, tile_pointsBuf_length]) (by simp)).2.2.1⟩

set_option maxRecDepth 100000 in
/-- C5, counterexample.  Tile 2820 is an A2 table tile of shape 4; its
quadrant 3 has source row qsy = 1 and is emitted as two slices of heights
24 = h1 (the full half-tile quadrant height) and 12 = h1 / 2, overlapping
by draw order, not as two stacked slices of one common half height: the
emitted heights over the five commands are 24, 24, 24, 24, 12. -/
theorem c5_counterexample :
    (drawAutotileCalls 48 48 tableFlags2820 2820 0 0).map
      (List.map (fun c => c.opts.tileHeight)) =
      some [some (48 / 2), some (48 / 2), some (48 / 2), some (48 / 2),
        some (48 / 2 / 2)] ∧
    ((48 : ℚ) / 2 = 24 ∧ (48 : ℚ) / 2 / 2 = 12 ∧ (24 : ℚ) ≠ 12) :=
  ⟨by rfl, by norm_num⟩

/-- C5, amended: in the quadrant loop of _drawAutotile, a table-tile
quadrant whose source row qsy is 1 or 5 is emitted as two slices: an upper
slice of the full quadrant height h1 sourced from row 3 with the horizontal
index mirrored to (4 - qsx) mod 4 when qsy is 1, and a lower slice of
height h1 / 2 placed h1 / 2 below the quadrant origin, sourced from the
original quadrant coordinates; every other quadrant is emitted as exactly
one w1 by h1 command, so a non-table autotile decodes to exactly four
half-tile commands of size 24 by 24 at the default 48-pixel tile size. -/
theorem c5_table_quadrants :
    (∀ (p : AutoParams) (e : QuadEntry) (w1 h1 dx dy : ℚ) (i : Nat),
      (p.isTable = true ∧ ((quadAt e i).2 = 1 ∨ (quadAt e i).2 = 5) →
        autotileQuadDraw p e w1 h1 dx dy i =
          [tableUpperSlice p (quadAt e i).1 (quadAt e i).2 w1 h1
            (dx + ((i % 2 : Nat) : ℚ) * w1) (dy + ((i / 2 : Nat) : ℚ) * h1),
           tableLowerSlice p (quadAt e i).1 (quadAt e i).2 w1 h1
            (dx + ((i % 2 : Nat) : ℚ) * w1) (dy + ((i / 2 : Nat) : ℚ) * h1)]) ∧
      (¬(p.isTable = true ∧ ((quadAt e i).2 = 1 ∨ (quadAt e i).2 = 5)) →
        autotileQuadDraw p e w1 h1 dx dy i =
          [plainQuadSlice p (quadAt e i).1 (quadAt e i).2 w1 h1
            (dx + ((i % 2 : Nat) : ℚ) * w1)
            (dy + ((i / 2 : Nat) : ℚ) * h1)])) ∧
    (∀ (p : AutoParams) (qsx qsy : Int) (w1 h1 dx1 dy1 : ℚ),
      (tableUpperSlice p qsx qsy w1 h1 dx1 dy1).opts.tileHeight = some h1 ∧
      (tableUpperSlice p qsx qsy w1 h1 dx1 dy1).y = dy1 ∧
      (tableUpperSlice p qsx qsy w1 h1 dx1 dy1).opts.v =
        some (((p.byv * 2 + 3 : Int) : ℚ) * h1) ∧
      (qsy = 1 →
        (tableUpperSlice p qsx qsy w1 h1 dx1 dy1).opts.u =
          some (((p.bx * 2 + (4 - qsx).tmod 4 : Int) : ℚ) * w1)) ∧
      (tableLowerSlice p qsx qsy w1 h1 dx1 dy1).opts.tileHeight =
        some (h1 / 2) ∧
      (tableLowerSlice p qsx qsy w1 h1 dx1 dy1).y = dy1 + h1 / 2 ∧
      (tableLowerSlice p qsx qsy w1 h1 dx1 dy1).opts.u =
        some (((p.bx * 2 + qsx : Int) : ℚ) * w1) ∧
      (plainQuadSlice p qsx qsy w1 h1 dx1 dy1).opts.tileWidth = some w1 ∧
      (plainQuadSlice p qsx qsy w1 h1 dx1 dy1).opts.tileHeight = some h1) ∧
    (∀ (flags : List Nat) (tileId : Int) (dx dy : ℚ)
        (calls : List LayerCall),
      drawAutotileCalls 48 48 flags tileId dx dy = some calls →
      (autotileParams flags tileId).isTable = false →
      calls.length = 4 ∧
        ∀ c ∈ calls,
          c.opts.tileWidth = some 24 ∧ c.opts.tileHeight = some 24) := by
  refine ⟨?_, ?_, ?_⟩
  · intro p e w1 h1 dx dy i
    constructor
    · intro h
      unfold autotileQuadDraw
      rw [if_pos h]
    · intro h
      unfold autotileQuadDraw
      rw [if_neg h]
  · intro p qsx qsy w1 h1 dx1 dy1
    refine ⟨rfl, rfl, rfl, ?_, rfl, rfl, rfl, rfl, rfl⟩
    intro h1eq
    simp [tableUpperSlice, mirrorQsx, h1eq]
  · intro flags tileId dx dy calls hcalls hTable
    unfold drawAutotileCalls at hcalls
    by_cases hs : getAutotileShape tileId < 0
    · rw [if_pos hs] at hcalls
      cases hcalls
    · rw [if_neg hs] at hcalls
      rcases hget : (tableOf (autotileParams flags tileId).tbl).get?
          (getAutotileShape tileId).toNat with _ | e
      · rw [hget] at hcalls
        cases hcalls
      · rw [hget] at hcalls
        have hcalls2 : calls = (List.range 4).flatMap
            (autotileQuadDraw (autotileParams flags tileId) e (48 / 2)
              (48 / 2) dx dy) := (Option.some.inj hcalls).symm
        subst hcalls2
        have hbody : ∀ i : Nat,
            autotileQuadDraw (autotileParams flags tileId) e (48 / 2)
              (48 / 2) dx dy i =
            [plainQuadSlice (autotileParams flags tileId) (quadAt e i).1
              (quadAt e i).2 (48 / 2) (48 / 2)
              (dx + ((i % 2 : Nat) : ℚ) * (48 / 2))
              (dy + ((i / 2 : Nat) : ℚ) * (48 / 2))] := by
          intro i
          unfold autotileQuadDraw
          rw [if_neg]
          rintro ⟨hx, _⟩
          rw [hTable] at hx
          exact Bool.false_ne_true hx
        rw [show List.range 4 = [0, 1, 2, 3] from rfl]
        constructor
        · simp [List.flatMap, hbody]
        · intro c hc
          simp only [List.flatMap_cons, List.flatMap_nil, hbody,
            List.singleton_append, List.append_nil, List.mem_cons,
            List.not_mem_nil, or_false] at hc
          have hwh : ∀ q1 q2 d1 d2,
              (plainQuadSlice (autotileParams flags tileId) q1 q2 (48 / 2)
                (48 / 2) d1 d2).opts.tileWidth = some 24 ∧
              (plainQuadSlice (autotileParams flags tileId) q1 q2 (48 / 2)
                (48 / 2) d1 d2).opts.tileHeight = some 24 := by
            intro q1 q2 d1 d2
            constructor <;> · simp only [plainQuadSlice]; norm_num
          rcases hc with rfl | rfl | rfl | rfl <;> exact hwh _ _ _ _

/-- C5, witness of the amended theorem at a table quadrant with qsy = 1:
the two slices of quadrant 3 of floor shape 4. -/
theorem c5_table_quadrants_witness :
    ((⟨1, 0, 0, 0, 0, .floor, true⟩ : AutoParams).isTable = true ∧
      ((quadAt (qe 2 4 1 4 2 3 3 1) 3).2 = 1 ∨
        (quadAt (qe 2 4 1 4 2 3 3 1) 3).2 = 5)) ∧
    autotileQuadDraw ⟨1, 0, 0, 0, 0, .floor, true⟩ (qe 2 4 1 4 2 3 3 1)
        24 24 0 0 3 =
      [tableUpperSlice ⟨1, 0, 0, 0, 0, .floor, true⟩
        (quadAt (qe 2 4 1 4 2 3 3 1) 3).1 (quadAt (qe 2 4 1 4 2 3 3 1) 3).2
        24 24 (0 + ((3 % 2 : Nat) : ℚ) * 24) (0 + ((3 / 2 : Nat) : ℚ) * 24),
       tableLowerSlice ⟨1, 0, 0, 0, 0, .floor, true⟩
        (quadAt (qe 2 4 1 4 2 3 3 1) 3).1 (quadAt (qe 2 4 1 4 2 3 3 1) 3).2
        24 24 (0 + ((3 % 2 : Nat) : ℚ) * 24)
        (0 + ((3 / 2 : Nat) : ℚ) * 24)] :=
  ⟨by decide,
    (c5_table_quadrants.1 ⟨1, 0, 0, 0, 0, .floor, true⟩
      (qe 2 4 1 4 2 3 3 1) 24 24 0 0 3).1 (by decide)⟩

theorem updLP_commandLists (st : ShaderState) (a b : Int) :
    commandLists (updateLayerPositions st a b) = commandLists st := rfl

theorem updLP_lastStartX (st : ShaderState) (a b : Int) :
    (updateLayerPositions st a b).lastStartX = st.lastStartX := rfl

theorem updLP_lastStartY (st : ShaderState) (a b : Int) :
    (updateLayerPositions st a b).lastStartY = st.lastStartY := rfl

theorem repaintStartX_congr (s t : ShaderState)
    (h1 : s.roundPixels = t.roundPixels) (h2 : s.originX = t.originX)
    (h3 : s.cfg = t.cfg) : repaintStartX s = repaintStartX t := by
  simp [repaintStartX, h1, h2, h3]

theorem repaintStartY_congr (s t : ShaderState)
    (h1 : s.roundPixels = t.roundPixels) (h2 : s.originY = t.originY)
    (h3 : s.cfg = t.cfg) : repaintStartY s = repaintStartY t := by
  simp [repaintStartY, h1, h2, h3]

theorem repaint_skip (s : ShaderState) (hp : ¬s.paintAll = true)
    (h1 : s.lastStartX = some (repaintStartX s))
    (h2 : s.lastStartY = some (repaintStartY s)) :
    shaderRepaint false s =
      some (updateLayerPositions s (repaintStartX s) (repaintStartY s)) := by
  have hcond : ¬((updateLayerPositions s (repaintStartX s)
        (repaintStartY s)).lastStartX ≠ some (repaintStartX s) ∨
      (updateLayerPositions s (repaintStartX s)
        (repaintStartY s)).lastStartY ≠ some (repaintStartY s)) := by
    rw [updLP_lastStartX, updLP_lastStartY, h1, h2]
    simp
  simp only [shaderRepaint, Bool.false_eq_true, if_false, false_or]
  rw [if_neg hp, if_neg hcond]

/-- C3: an unforced repaint after an unforced repaint with unchanged scroll
origin and unchanged map data performs no geometry mutation: the second
call succeeds and leaves every composite layer's command lists unchanged in
content and length. -/
theorem c3_repaint_idempotent (st st1 : ShaderState)
    (h : shaderRepaint false st = some st1) :
    ∃ st2, shaderRepaint false st1 = some st2 ∧
      commandLists st2 = commandLists st1 := by
  simp only [shaderRepaint, Bool.false_eq_true, if_false, false_or] at h
  split_ifs at h with hp hc
  · obtain rfl : updateLayerPositions st 0 0 = st1 := Option.some.inj h
    simp only [shaderRepaint, Bool.false_eq_true, if_false, false_or]
    rw [if_pos (show (updateLayerPositions st 0 0).paintAll = true from hp)]
    exact ⟨_, rfl, rfl⟩
  · obtain ⟨L, hL, rfl⟩ := Option.map_eq_some'.1 h
    refine ⟨_, repaint_skip _ hp ?_ ?_, rfl⟩
    · rw [repaintStartX_congr _ st rfl rfl rfl]
      rfl
    · rw [repaintStartY_congr _ st rfl rfl rfl]
      rfl
  · obtain rfl : updateLayerPositions st (repaintStartX st)
        (repaintStartY st) = st1 := Option.some.inj h
    rw [not_or] at hc
    obtain ⟨hc1, hc2⟩ := hc
    rw [not_ne_iff] at hc1 hc2
    refine ⟨_, repaint_skip _ hp ?_ ?_, rfl⟩
    · rw [updLP_lastStartX, repaintStartX_congr _ st rfl rfl rfl]
      exact hc1
    · rw [updLP_lastStartY, repaintStartY_congr _ st rfl rfl rfl]
      exact hc2

/-- C3, witness: the renderer over the 1 by 1 map repainted twice without
force. -/
theorem c3_repaint_idempotent_witness :
    (shaderRepaint false stOneCell =
      some (updateLayerPositions stOneCell 0 0)) ∧
    ∃ st2, shaderRepaint false (updateLayerPositions stOneCell 0 0) =
        some st2 ∧
      commandLists st2 = commandLists (updateLayerPositions stOneCell 0 0) :=
  ⟨rfl, c3_repaint_idempotent stOneCell _ rfl⟩

/-- C10: the nine composite layers are kept in the fixed display order
lower 0, lower 1, shadow, lower 2, lower 3, upper 0, upper 1, upper 2,
upper 3: the constructor's addChild sequence establishes it, the two forced
repaints of the constructor keep it, and no repaint (whose clear phase is
the only clear the renderer performs) ever changes it. -/
theorem c10_layer_order :
    constructorChildOrder =
      [.lower 0, .lower 1, .shadow, .lower 2, .lower 3,
       .upper 0, .upper 1, .upper 2, .upper 3] ∧
    (∀ (cfg : MapConfig) (paintAll : Bool) (st : ShaderState),
      mkShaderTilemap cfg paintAll = some st →
        st.childOrder = constructorChildOrder) ∧
    (∀ (f : Bool) (st st2 : ShaderState),
      shaderRepaint f st = some st2 → st2.childOrder = st.childOrder) := by
  have hrep : ∀ (f : Bool) (st st2 : ShaderState),
      shaderRepaint f st = some st2 → st2.childOrder = st.childOrder := by
    intro f st st2 h
    simp only [shaderRepaint] at h
    split_ifs at h
    · obtain ⟨L, hL, rfl⟩ := Option.map_eq_some'.1 h
      rfl
    · obtain rfl := Option.some.inj h
      rfl
    · obtain ⟨L, hL, rfl⟩ := Option.map_eq_some'.1 h
      rfl
    · obtain rfl := Option.some.inj h
      rfl
  refine ⟨rfl, ?_, hrep⟩
  intro cfg paintAll st h
  simp only [mkShaderTilemap, Option.bind_eq_bind, bind] at h
  rcases h1 : shaderRepaint true (newShaderState cfg paintAll) with _ | s1
  · rw [h1] at h
    cases h
  · rw [h1] at h
    have e1 : s1.childOrder = (newShaderState cfg paintAll).childOrder :=
      hrep true _ _ h1
    have e2 : st.childOrder = s1.childOrder := hrep true _ _ h
    rw [e2, e1]
    rfl

/-- C10, witness: an unforced repaint preserves the display order of the 1
by 1 renderer. -/
theorem c10_layer_order_witness :
    (shaderRepaint false stOneCell =
      some (updateLayerPositions stOneCell 0 0)) ∧
    (updateLayerPositions stOneCell 0 0).childOrder =
      stOneCell.childOrder :=
  ⟨rfl, c10_layer_order.2.2 false stOneCell _ rfl⟩

end RM
